import Mathlib

/-!
Shallow embedding of the HG-BASE production-order backend (TypeScript) core:
the workflow state machine (productionWorkflow.service.ts), the domain
validator (domainValidation.service.ts), the calculation engine
(calculationEngine.service.ts), order creation (production.service.ts) and
the audit log (audit.service.ts).

Modelling conventions:
- Mongo ObjectIds are modelled as natural numbers.
- JavaScript numbers are modelled as rationals (ℚ); timestamps are rationals
  counting hours.
- `await`-ed persistence operations are modelled by explicit state passing
  over association lists keyed by id.
- Thrown `ResponseError`s are modelled with `Except ResponseError`.
- Randomness-derived tokens (order codes, lot codes) are supplied as
  parameters.
-/

namespace HGBase

/-- The eight production lifecycle states (Production.model.ts). -/
inductive ProductionState where
  | CREADO
  | VALIDADO
  | CALCULADO
  | PROGRAMADO
  | PRODUCIDO
  | QC
  | ETIQUETADO
  | FINALIZADO
deriving DecidableEq, Repr

/-- System user roles (User.model.ts). -/
inductive UserRole where
  | AUXILIAR
  | QUIMICO
  | COORDINADOR
  | AUDITOR
deriving DecidableEq, Repr

/-- The two production lines (Production.model.ts). -/
inductive Linea where
  | ONCO
  | ESTERIL
deriving DecidableEq, Repr

/-- Display name of a state, as interpolated into error messages. -/
def ProductionState.name : ProductionState → String
  | .CREADO => "CREADO"
  | .VALIDADO => "VALIDADO"
  | .CALCULADO => "CALCULADO"
  | .PROGRAMADO => "PROGRAMADO"
  | .PRODUCIDO => "PRODUCIDO"
  | .QC => "QC"
  | .ETIQUETADO => "ETIQUETADO"
  | .FINALIZADO => "FINALIZADO"

/-- Display name of a role, as interpolated into error messages. -/
def UserRole.name : UserRole → String
  | .AUXILIAR => "AUXILIAR"
  | .QUIMICO => "QUIMICO"
  | .COORDINADOR => "COORDINADOR"
  | .AUDITOR => "AUDITOR"

/-- Display name of a production line, as interpolated into error messages. -/
def Linea.name : Linea → String
  | .ONCO => "ONCO"
  | .ESTERIL => "ESTERIL"

/-- Thrown `ResponseError(status, message)` from utils/erros. -/
structure ResponseError where
  status : ℕ
  message : String
deriving DecidableEq, Repr

open ProductionState UserRole

/-- Allowed state transitions table of ProductionWorkflowService
(productionWorkflow.service.ts, `STATE_TRANSITIONS`). -/
def STATE_TRANSITIONS : ProductionState → List ProductionState
  | CREADO => [VALIDADO]
  | VALIDADO => [CALCULADO]
  | CALCULADO => [PROGRAMADO]
  | PROGRAMADO => [PRODUCIDO]
  | PRODUCIDO => [QC]
  | QC => [ETIQUETADO]
  | ETIQUETADO => [FINALIZADO]
  | FINALIZADO => []

/-- Allowed roles per target state (productionWorkflow.service.ts,
`ROLE_PERMISSIONS`). -/
def ROLE_PERMISSIONS : ProductionState → List UserRole
  | CREADO => [AUXILIAR, QUIMICO, COORDINADOR]
  | VALIDADO => [QUIMICO, COORDINADOR]
  | CALCULADO => [QUIMICO, COORDINADOR]
  | PROGRAMADO => [COORDINADOR]
  | PRODUCIDO => [QUIMICO, COORDINADOR]
  | QC => [QUIMICO, COORDINADOR]
  | ETIQUETADO => [AUXILIAR, QUIMICO, COORDINADOR]
  | FINALIZADO => [COORDINADOR]

/-- ProductionWorkflowService.validateTransition: throws a 400
`ResponseError` when `newState` is not in the transition table row of
`currentState`. -/
def validateTransition (currentState newState : ProductionState) :
    Except ResponseError Unit :=
  if newState ∈ STATE_TRANSITIONS currentState then
    .ok ()
  else
    .error ⟨400, "Transición no permitida: no se puede pasar de " ++
      currentState.name ++ " a " ++ newState.name⟩

/-- ProductionWorkflowService.validateRolePermission: throws a 403
`ResponseError` when `userRole` is not in the permission row of `state`. -/
def validateRolePermission (state : ProductionState) (userRole : UserRole) :
    Except ResponseError Unit :=
  if userRole ∈ ROLE_PERMISSIONS state then
    .ok ()
  else
    .error ⟨403, "El rol " ++ userRole.name ++
      " no tiene permisos para realizar acciones en el estado " ++ state.name⟩

/-- ProductionWorkflowService.getNextState: head of the transition table row,
`null` for the terminal state. -/
def getNextState (currentState : ProductionState) : Option ProductionState :=
  (STATE_TRANSITIONS currentState).head?

/-- Patient identity fields embedded in a mix (Production.model.ts,
`IPaciente`). -/
structure Paciente where
  nombre : String
  documento : String
  aseguradora : String
  diagnostico : String
deriving DecidableEq, Repr

/-- Drug snapshot embedded in a mix (Production.model.ts,
`IMedicamentoMezcla`). -/
structure MedicamentoMezcla where
  id : ℕ
  nombre : String
  concentracion : String
  viaAdministracion : String
  dosisPrescrita : ℚ
  unidadDosis : String
deriving DecidableEq, Repr

/-- Container snapshot embedded in a mix (Production.model.ts,
`IEnvaseMezcla`). -/
structure EnvaseMezcla where
  id : ℕ
  tipo : String
  nombre : Option String
deriving DecidableEq, Repr

/-- Vehicle snapshot embedded in a mix (Production.model.ts,
`IVehiculoMezcla`). -/
structure VehiculoMezcla where
  id : ℕ
  nombre : String
  volumenVehiculo : ℚ
deriving DecidableEq, Repr

/-- Computed volumes of a mix (Production.model.ts, `ICalculosMezcla`). -/
structure CalculosMezcla where
  volumenExtraer : ℚ
  volumenMezcla : ℚ
  volumenVehiculo : ℚ
  volumenTotal : ℚ
  unidadesInsumo : ℤ
deriving DecidableEq, Repr

/-- One patient/drug preparation within an order (Production.model.ts,
`IMezcla`). -/
structure Mezcla where
  paciente : Paciente
  medicamento : MedicamentoMezcla
  envase : EnvaseMezcla
  vehiculo : VehiculoMezcla
  calculos : CalculosMezcla
  loteMezcla : String
  fechaVencimiento : ℚ
  cantidadMezclas : ℕ
deriving DecidableEq, Repr

/-- Per-stage timestamp map (Production.model.ts, `ITimestamps`): `creado`
is required, every later stage is optional. Instants are rationals counting
hours. -/
structure Timestamps where
  creado : ℚ
  validado : Option ℚ := none
  calculado : Option ℚ := none
  programado : Option ℚ := none
  producido : Option ℚ := none
  qc : Option ℚ := none
  etiquetado : Option ℚ := none
  finalizado : Option ℚ := none
deriving DecidableEq, Repr

/-- A production order document (Production.model.ts, `IProduction`).
The display-only pharmacist name fields (`qfInterpretacion`,
`qfProduccion`, `qfCalidad`) and `versionMotorCalculo` are omitted: no
claim concerns them and no workflow logic reads them. -/
structure Production where
  codigo : String
  fechaProduccion : ℚ
  lineaProduccion : Linea
  cantidadMezclas : ℕ
  mezclas : List Mezcla
  estado : ProductionState
  timestamps : Timestamps
  creadoPor : ℕ
  validadoPor : Option ℕ := none
  calculadoPor : Option ℕ := none
  programadoPor : Option ℕ := none
  producidoPor : Option ℕ := none
  qcPor : Option ℕ := none
  etiquetadoPor : Option ℕ := none
  finalizadoPor : Option ℕ := none
deriving DecidableEq, Repr

/-- An audit log document (AuditLog.model.ts, `IAuditLog`); the free-form
`cambios` payload is modelled as an association list of strings. -/
structure AuditRecord where
  entidad : String
  entidadId : ℕ
  accion : String
  cambios : List (String × String)
  usuarioId : ℕ
  timestamp : ℚ
deriving DecidableEq, Repr

/-- Persistent state visible to the workflow service: the production
collection keyed by id, and the append-only audit log (newest first). -/
structure WorkflowDB where
  productions : List (ℕ × Production)
  auditLog : List AuditRecord
deriving DecidableEq, Repr

/-- Mongoose `Production.findById`. -/
def findProduction (db : WorkflowDB) (productionId : ℕ) : Option Production :=
  db.productions.lookup productionId

/-- Store the updated document under its id (the write performed by
`findByIdAndUpdate`). -/
def storeProduction (db : WorkflowDB) (productionId : ℕ) (p : Production) :
    WorkflowDB :=
  { db with
    productions := db.productions.map
      (fun kv => if kv.1 = productionId then (kv.1, p) else kv) }

/-- Effect of the transition update document
`timestamps.<newState.toLowerCase()> = new Date()` on the timestamp map. -/
def setStageTimestamp (t : Timestamps) (newState : ProductionState) (now : ℚ) :
    Timestamps :=
  match newState with
  | CREADO => { t with creado := now }
  | VALIDADO => { t with validado := some now }
  | CALCULADO => { t with calculado := some now }
  | PROGRAMADO => { t with programado := some now }
  | PRODUCIDO => { t with producido := some now }
  | QC => { t with qc := some now }
  | ETIQUETADO => { t with etiquetado := some now }
  | FINALIZADO => { t with finalizado := some now }

/-- Effect of the transition update field
`<newState.toLowerCase()>Por = userId` on the document. -/
def setStageActor (p : Production) (newState : ProductionState) (userId : ℕ) :
    Production :=
  match newState with
  | CREADO => { p with creadoPor := userId }
  | VALIDADO => { p with validadoPor := some userId }
  | CALCULADO => { p with calculadoPor := some userId }
  | PROGRAMADO => { p with programadoPor := some userId }
  | PRODUCIDO => { p with producidoPor := some userId }
  | QC => { p with qcPor := some userId }
  | ETIQUETADO => { p with etiquetadoPor := some userId }
  | FINALIZADO => { p with finalizadoPor := some userId }

/-- The `$set` update of ProductionWorkflowService.transitionToState applied
to a stored document: sets `estado`, stamps the target-state timestamp and
the target-state actor field. Every other field (in particular `mezclas`)
is untouched. -/
def applyUpdateData (p : Production) (newState : ProductionState)
    (userId : ℕ) (now : ℚ) : Production :=
  setStageActor
    { p with estado := newState, timestamps := setStageTimestamp p.timestamps newState now }
    newState userId

/-- The audit payload `{estadoAnterior, estadoNuevo, usuarioId}` written by
transitionToState. -/
def transitionAuditRecord (productionId : ℕ) (previousState newState : ProductionState)
    (userId : ℕ) (now : ℚ) : AuditRecord :=
  { entidad := "Production"
    entidadId := productionId
    accion := "STATE_TRANSITION"
    cambios := [("estadoAnterior", previousState.name),
                ("estadoNuevo", newState.name),
                ("usuarioId", toString userId)]
    usuarioId := userId
    timestamp := now }

/-- Read-and-validate phase of ProductionWorkflowService.transitionToState
(everything before the first write, i.e. before the `findByIdAndUpdate`
await point): load the document, validate the transition against the state
just read, validate the role. No write occurs in this phase. -/
def transitionReadPhase (db : WorkflowDB) (productionId : ℕ)
    (newState : ProductionState) (userRole : UserRole) :
    Except ResponseError Production :=
  match findProduction db productionId with
  | none => .error ⟨404, "Producción no encontrada"⟩
  | some production =>
    match validateTransition production.estado newState with
    | .error e => .error e
    | .ok _ =>
      match validateRolePermission newState userRole with
      | .error e => .error e
      | .ok _ => .ok production

/-- Write phase of ProductionWorkflowService.transitionToState: the
`findByIdAndUpdate` call — an UNCONDITIONAL update of whatever document is
currently stored (it is not conditioned on the previously read state) —
followed by the audit append. `previousState` is only interpolated into the
audit payload (`production.estado` from the read phase). Returns the thrown
error or the updated document, together with the resulting store. -/
def transitionWritePhase (db : WorkflowDB) (productionId : ℕ)
    (previousState newState : ProductionState) (userId : ℕ) (now : ℚ) :
    Except ResponseError Production × WorkflowDB :=
  match findProduction db productionId with
  | none => (.error ⟨500, "Error al actualizar la producción"⟩, db)
  | some current =>
    let updated := applyUpdateData current newState userId now
    let db1 := storeProduction db productionId updated
    let rec1 := transitionAuditRecord productionId previousState newState userId now
    (.ok updated, { db1 with auditLog := rec1 :: db1.auditLog })

/-- ProductionWorkflowService.transitionToState, sequential execution: the
read phase followed immediately by the write phase on the same store. -/
def transitionToState (db : WorkflowDB) (productionId : ℕ)
    (newState : ProductionState) (userId : ℕ) (userRole : UserRole) (now : ℚ) :
    Except ResponseError Production × WorkflowDB :=
  match transitionReadPhase db productionId newState userRole with
  | .error e => (.error e, db)
  | .ok production =>
    transitionWritePhase db productionId production.estado newState userId now

/-- A drug presentation (Medicine.model.ts, `IPresentation`). -/
structure Presentation where
  volumen : ℚ
  unidad : String
  cantidad : ℚ
  tipoEnvase : String
deriving DecidableEq, Repr

/-- A medicine record (Medicine.model.ts, `IMedicine`). -/
structure Medicine where
  nombre : String
  principioActivo : String
  concentracion : String
  presentaciones : List Presentation
  viaAdministracion : String
  lineaProductiva : Linea
  habilitado : Bool
deriving DecidableEq, Repr

/-- A laboratory record (Lab.model.ts, `ILab`). -/
structure Lab where
  nombre : String
  pais : String
  habilitado : Bool
deriving DecidableEq, Repr

/-- A vehicle record (Vehicle.model.ts, `IVehicle`). -/
structure Vehicle where
  nombre : String
  compatibleConLinea : List Linea
deriving DecidableEq, Repr

/-- A container record (Container.model.ts, `IContainer`). -/
structure Container where
  tipo : String
  volumenMax : ℚ
  material : String
deriving DecidableEq, Repr

/-- A stability record (Stability.model.ts, `IStability`). -/
structure Stability where
  medicamentoId : ℕ
  laboratorioId : ℕ
  vehiculoId : ℕ
  envaseId : ℕ
  horasEstabilidad : ℚ
  condiciones : String
deriving DecidableEq, Repr

/-- Read-only catalog collections, keyed by id where the code looks up by
id; stabilities are queried by field predicates, so they are kept as a
plain list in insertion order (the order `findOne` scans). -/
structure Catalog where
  medicines : List (ℕ × Medicine)
  labs : List (ℕ × Lab)
  vehicles : List (ℕ × Vehicle)
  containers : List (ℕ × Container)
  stabilities : List Stability
deriving DecidableEq, Repr

/-- Transient validation value object (production.types.ts,
`ValidationResult`). -/
structure ValidationResult where
  isValid : Bool
  errors : List String
deriving DecidableEq, Repr

/-- Input of the domain validator (production.types.ts,
`ProductionValidationData`). -/
structure ProductionValidationData where
  medicamentoId : ℕ
  laboratorioId : ℕ
  vehiculoId : ℕ
  envaseId : ℕ
  lineaProductiva : Linea
deriving DecidableEq, Repr

/-- DomainValidationService.validateMedicine: not-found, then the enabled
flag. -/
def validateMedicine (cat : Catalog) (medicamentoId : ℕ) : ValidationResult :=
  match cat.medicines.lookup medicamentoId with
  | none => ⟨false, ["Medicamento no encontrado"]⟩
  | some medicamento =>
    if medicamento.habilitado then ⟨true, []⟩
    else ⟨false, ["Medicamento no habilitado para producción"]⟩

/-- DomainValidationService.validateLab: not-found, then the enabled flag. -/
def validateLab (cat : Catalog) (laboratorioId : ℕ) : ValidationResult :=
  match cat.labs.lookup laboratorioId with
  | none => ⟨false, ["Laboratorio no encontrado"]⟩
  | some laboratorio =>
    if laboratorio.habilitado then ⟨true, []⟩
    else ⟨false, ["Laboratorio no habilitado"]⟩

/-- DomainValidationService.validateVehicle: not-found, then compatibility
of the vehicle with the requested production line. -/
def validateVehicle (cat : Catalog) (vehiculoId : ℕ) (lineaProductiva : Linea) :
    ValidationResult :=
  match cat.vehicles.lookup vehiculoId with
  | none => ⟨false, ["Vehículo no encontrado"]⟩
  | some vehiculo =>
    if lineaProductiva ∈ vehiculo.compatibleConLinea then ⟨true, []⟩
    else ⟨false, ["Vehículo no compatible con línea " ++ lineaProductiva.name]⟩

/-- DomainValidationService.validateContainer: fails only when absent. -/
def validateContainer (cat : Catalog) (envaseId : ℕ) : ValidationResult :=
  match cat.containers.lookup envaseId with
  | none => ⟨false, ["Envase no encontrado"]⟩
  | some _ => ⟨true, []⟩

/-- Mongoose `Stability.findOne` on all four of medicamentoId,
laboratorioId, vehiculoId, envaseId — the query issued by
DomainValidationService.validateStability and by
CalculationEngineService.calculateFromDatabase. -/
def stabilityFindOne4 (cat : Catalog) (medicamentoId laboratorioId vehiculoId envaseId : ℕ) :
    Option Stability :=
  cat.stabilities.find? (fun s =>
    s.medicamentoId = medicamentoId ∧ s.laboratorioId = laboratorioId ∧
      s.vehiculoId = vehiculoId ∧ s.envaseId = envaseId)

/-- Mongoose `Stability.findOne` on only medicamentoId, vehiculoId and
envaseId — the query issued by ProductionService.createProduction and
ProductionService.validateAndCalculate to resolve a stability record (the
laboratory is NOT part of this query; it is read off the record found). -/
def stabilityFindOne3 (cat : Catalog) (medicamentoId vehiculoId envaseId : ℕ) :
    Option Stability :=
  cat.stabilities.find? (fun s =>
    s.medicamentoId = medicamentoId ∧ s.vehiculoId = vehiculoId ∧
      s.envaseId = envaseId)

/-- DomainValidationService.validateStability: succeeds exactly when the
exact four-field query finds a record. -/
def validateStability (cat : Catalog) (data : ProductionValidationData) :
    ValidationResult :=
  match stabilityFindOne4 cat data.medicamentoId data.laboratorioId
      data.vehiculoId data.envaseId with
  | none => ⟨false, ["No existe estabilidad registrada para esta combinación de medicamento, laboratorio, vehículo y envase"]⟩
  | some _ => ⟨true, []⟩

/-- The `allErrors` accumulator of
DomainValidationService.validateCompleteDomain: each of the five checks is
run unconditionally, and its messages are appended whenever it failed. -/
def collectDomainErrors (cat : Catalog) (data : ProductionValidationData) :
    List String :=
  let medicamentoValidation := validateMedicine cat data.medicamentoId
  let laboratorioValidation := validateLab cat data.laboratorioId
  let vehiculoValidation := validateVehicle cat data.vehiculoId data.lineaProductiva
  let envaseValidation := validateContainer cat data.envaseId
  let estabilidadValidation := validateStability cat data
  (if medicamentoValidation.isValid then [] else medicamentoValidation.errors) ++
  (if laboratorioValidation.isValid then [] else laboratorioValidation.errors) ++
  (if vehiculoValidation.isValid then [] else vehiculoValidation.errors) ++
  (if envaseValidation.isValid then [] else envaseValidation.errors) ++
  (if estabilidadValidation.isValid then [] else estabilidadValidation.errors)

/-- DomainValidationService.validateCompleteDomain: throws a single 400
`ResponseError` joining every collected violation when any check failed,
and returns `{isValid: true, errors: []}` otherwise. -/
def validateCompleteDomain (cat : Catalog) (data : ProductionValidationData) :
    Except ResponseError ValidationResult :=
  let allErrors := collectDomainErrors cat data
  if allErrors.length > 0 then
    .error ⟨400, "Validación fallida: " ++ String.intercalate "; " allErrors⟩
  else
    .ok ⟨true, []⟩

/-- An ASCII decimal digit, the `\d` class of the concentration regex. -/
def isDigitJS (c : Char) : Bool := c.isDigit

/-- The `\w` class of the concentration regex: `[A-Za-z0-9_]`. -/
def isWordCharJS (c : Char) : Bool := c.isAlphanum || c = '_'

/-- The `\s` class of the concentration regex, restricted to the common
ASCII whitespace characters. -/
def isSpaceJS (c : Char) : Bool :=
  c = ' ' || c = '\t' || c = '\n' || c = '\r'

/-- Numeric value of a digit string. -/
def digitsToNat (ds : List Char) : ℕ :=
  ds.foldl (fun acc c => 10 * acc + (c.toNat - 48)) 0

/-- Exact rational value of the matched decimal literal
`\d+(?:\.\d+)?` (the `parseFloat` of the captured group; the literals that
occur are exactly representable). -/
def ratFromDigits (intPart fracPart : List Char) : ℚ :=
  (digitsToNat intPart : ℚ) + (digitsToNat fracPart : ℚ) / (10 ^ fracPart.length)

/-- Attempt to match the concentration pattern
`(\d+(?:\.\d+)?)\s*(\w+)\s*\/\s*ml` (case-insensitive) starting exactly at
the head of the character list, returning the parsed value and the raw
captured unit group. -/
def matchConcentracionAt (cs : List Char) : Option (ℚ × String) :=
  let intPart := cs.takeWhile isDigitJS
  let rest1 := cs.dropWhile isDigitJS
  if intPart.isEmpty then none else
  let fracSplit : List Char × List Char :=
    match rest1 with
    | '.' :: r =>
      let ds := r.takeWhile isDigitJS
      if ds.isEmpty then ([], rest1) else (ds, r.dropWhile isDigitJS)
    | _ => ([], rest1)
  let rest3 := fracSplit.2.dropWhile isSpaceJS
  let unit := rest3.takeWhile isWordCharJS
  let rest4 := rest3.dropWhile isWordCharJS
  if unit.isEmpty then none else
  match rest4.dropWhile isSpaceJS with
  | '/' :: r6 =>
    (match r6.dropWhile isSpaceJS with
     | m :: l :: _ =>
       if (m = 'm' ∨ m = 'M') ∧ (l = 'l' ∨ l = 'L') then
         some (ratFromDigits intPart fracSplit.1, String.mk unit)
       else none
     | _ => none)
  | _ => none

/-- Leftmost-match search of `String.prototype.match`: try the pattern at
each successive start position. -/
def scanConcentracion : List Char → Option (ℚ × String)
  | [] => none
  | c :: rest =>
    match matchConcentracionAt (c :: rest) with
    | some r => some r
    | none => scanConcentracion rest

/-- `concentracion.match(/(\d+(?:\.\d+)?)\s*(\w+)\s*\/\s*ml/i)` of
CalculationEngineService.calculateVolumenExtraer, as value and unit of the
first match. -/
def parseConcentracion (s : String) : Option (ℚ × String) :=
  scanConcentracion s.data

/-- ASCII lower-casing of `String.prototype.toLowerCase`, written over the
character list so it evaluates structurally; the units compared by the
engine are ASCII words. -/
def lowerString (s : String) : String := String.mk (s.data.map Char.toLower)

/-- JavaScript `Math.round`: round half toward positive infinity. -/
def jsRound (x : ℚ) : ℤ := ⌊x + 1 / 2⌋

/-- `Math.round(v * 100) / 100`: round to two decimals, half up. -/
def round2 (x : ℚ) : ℚ := (jsRound (x * 100) : ℚ) / 100

/-- CalculationEngineService.calculateVolumenExtraer: parse the
concentration, reject a unit mismatch (units are compared lower-cased and
never converted), divide the dose by the concentration value, round to two
decimals. A zero concentration value would give `Infinity` in JavaScript;
in this rational model the division yields 0 — no claim exercises that
case. -/
def calculateVolumenExtraer (dosisPrescrita : ℚ)
    (unidadDosis concentracion : String) : Except ResponseError ℚ :=
  match parseConcentracion concentracion with
  | none => .error ⟨400, "Formato de concentración inválido: " ++ concentracion⟩
  | some pr =>
    let concentracionValor := pr.1
    let concentracionUnidad := lowerString pr.2
    let dosisUnidad := lowerString unidadDosis
    if dosisUnidad ≠ concentracionUnidad then
      .error ⟨400, "Unidades no coinciden: dosis en " ++ unidadDosis ++
        ", concentración en " ++ concentracionUnidad⟩
    else
      .ok (round2 (dosisPrescrita / concentracionValor))

/-- CalculationEngineService.calculateUnidadesInsumo: reject a non-positive
presentation volume, otherwise `Math.ceil((volumenExtraer /
volumenPresentacion) * unidadesPresentacion)`. -/
def calculateUnidadesInsumo (volumenExtraer volumenPresentacion unidadesPresentacion : ℚ) :
    Except ResponseError ℤ :=
  if volumenPresentacion ≤ 0 then
    .error ⟨400, "Volumen de presentación debe ser mayor a 0"⟩
  else
    .ok ⌈volumenExtraer / volumenPresentacion * unidadesPresentacion⌉

/-- CalculationEngineService.calculateVolumenFinal: sum, rounded to two
decimals. -/
def calculateVolumenFinal (volumenExtraer volumenVehiculo : ℚ) : ℚ :=
  round2 (volumenExtraer + volumenVehiculo)

/-- CalculationEngineService.calculateFechaVencimiento: reject non-positive
stability hours, otherwise the current instant plus that many hours. The
engine reads its own clock; it is passed here as `now`. -/
def calculateFechaVencimiento (now horasEstabilidad : ℚ) :
    Except ResponseError ℚ :=
  if horasEstabilidad ≤ 0 then
    .error ⟨400, "Horas de estabilidad deben ser mayores a 0"⟩
  else
    .ok (now + horasEstabilidad)

/-- Input of the full calculation (production.types.ts,
`CalculationInput`). -/
structure CalculationInput where
  dosisPrescrita : ℚ
  unidadDosis : String
  concentracion : String
  volumenPresentacion : ℚ
  unidadesPresentacion : ℚ
  horasEstabilidad : ℚ
deriving DecidableEq, Repr

/-- Output of the full calculation (production.types.ts,
`CalculationResult`). -/
structure CalculationResult where
  volumenExtraer : ℚ
  volumenFinal : ℚ
  unidadesInsumo : ℤ
  lote : String
  fechaVencimiento : ℚ
deriving DecidableEq, Repr

/-- CalculationEngineService.calculateComplete: dose-positivity guard, then
the four sub-calculations in order. The final volume is computed with a
vehicle volume of 0 (the vehicle is added later). The random lot token is
supplied as `lote`. -/
def calculateComplete (now : ℚ) (lote : String) (input : CalculationInput) :
    Except ResponseError CalculationResult :=
  if input.dosisPrescrita ≤ 0 then
    .error ⟨400, "Dosis prescrita debe ser mayor a 0"⟩
  else
    match calculateVolumenExtraer input.dosisPrescrita input.unidadDosis
        input.concentracion with
    | .error e => .error e
    | .ok volumenExtraer =>
      match calculateUnidadesInsumo volumenExtraer input.volumenPresentacion
          input.unidadesPresentacion with
      | .error e => .error e
      | .ok unidadesInsumo =>
        let volumenFinal := calculateVolumenFinal volumenExtraer 0
        match calculateFechaVencimiento now input.horasEstabilidad with
        | .error e => .error e
        | .ok fechaVencimiento =>
          .ok ⟨volumenExtraer, volumenFinal, unidadesInsumo, lote, fechaVencimiento⟩

/-- CalculationEngineService.calculateFromDatabase: resolve the medicine,
the stability record for the exact four-id tuple, and the first listed
presentation, then delegate to `calculateComplete`. -/
def calculateFromDatabase (cat : Catalog) (now : ℚ) (lote : String)
    (medicamentoId laboratorioId vehiculoId envaseId : ℕ)
    (dosisPrescrita : ℚ) (unidadDosis : String) :
    Except ResponseError CalculationResult :=
  match cat.medicines.lookup medicamentoId with
  | none => .error ⟨404, "Medicamento no encontrado"⟩
  | some medicamento =>
    match stabilityFindOne4 cat medicamentoId laboratorioId vehiculoId envaseId with
    | none => .error ⟨404, "Estabilidad no encontrada para esta combinación"⟩
    | some estabilidad =>
      match medicamento.presentaciones.head? with
      | none => .error ⟨400, "Medicamento no tiene presentaciones disponibles"⟩
      | some presentacion =>
        calculateComplete now lote
          { dosisPrescrita := dosisPrescrita
            unidadDosis := unidadDosis
            concentracion := medicamento.concentracion
            volumenPresentacion := presentacion.volumen
            unidadesPresentacion := presentacion.cantidad
            horasEstabilidad := estabilidad.horasEstabilidad }

/-- Input for one mix (production.service.ts, `CreateMezclaDTO`). -/
structure CreateMezclaDTO where
  paciente : Paciente
  medicamentoId : ℕ
  vehiculoId : ℕ
  envaseId : ℕ
  dosisPrescrita : ℚ
  unidadDosis : String
  cantidadMezclas : Option ℕ
deriving DecidableEq, Repr

/-- Input for an order (production.service.ts, `CreateProductionDTO`); the
display-only pharmacist name fields are omitted as in `Production`. -/
structure CreateProductionDTO where
  lineaProduccion : Linea
  fechaProduccion : Option ℚ
  mezclas : List CreateMezclaDTO
deriving DecidableEq, Repr

/-- Body of the per-mix loop of ProductionService.createProduction: resolve
medicine, vehicle and container by id, resolve the stability record by the
THREE-field query (the laboratory id is then read off the record found),
run the aggregate domain validation, run the calculation engine, derive the
stored volumes from the engine result, and stamp a fixed 24-hour expiry on
the production date. `loteMezcla` stands for the random lot token of
`generateLoteMezcla`; the engine's own internal lot token (discarded by
this code path) is modelled by the same parameter. -/
def buildMezcla (cat : Catalog) (lineaProduccion : Linea)
    (fechaProduccion now : ℚ) (loteMezcla : String)
    (mezclaData : CreateMezclaDTO) : Except ResponseError Mezcla :=
  match cat.medicines.lookup mezclaData.medicamentoId with
  | none => .error ⟨404, "Medicamento " ++ toString mezclaData.medicamentoId ++ " no encontrado"⟩
  | some medicamento =>
  match cat.vehicles.lookup mezclaData.vehiculoId with
  | none => .error ⟨404, "Vehículo " ++ toString mezclaData.vehiculoId ++ " no encontrado"⟩
  | some vehiculo =>
  match cat.containers.lookup mezclaData.envaseId with
  | none => .error ⟨404, "Envase " ++ toString mezclaData.envaseId ++ " no encontrado"⟩
  | some envase =>
  match stabilityFindOne3 cat mezclaData.medicamentoId mezclaData.vehiculoId mezclaData.envaseId with
  | none => .error ⟨404, "No se encontró estabilidad para esta combinación de medicamento, vehículo y envase"⟩
  | some estabilidad =>
  match validateCompleteDomain cat
      { medicamentoId := mezclaData.medicamentoId
        laboratorioId := estabilidad.laboratorioId
        vehiculoId := mezclaData.vehiculoId
        envaseId := mezclaData.envaseId
        lineaProductiva := lineaProduccion } with
  | .error e => .error e
  | .ok _ =>
  match calculateFromDatabase cat now loteMezcla mezclaData.medicamentoId
      estabilidad.laboratorioId mezclaData.vehiculoId mezclaData.envaseId
      mezclaData.dosisPrescrita mezclaData.unidadDosis with
  | .error e => .error e
  | .ok resultados =>
    let volumenVehiculo := resultados.volumenFinal - resultados.volumenExtraer
    let volumenMezcla := resultados.volumenExtraer
    let volumenTotal := resultados.volumenFinal
    let fechaVencimiento := fechaProduccion + 24
    .ok
      { paciente := mezclaData.paciente
        medicamento :=
          { id := mezclaData.medicamentoId
            nombre := medicamento.nombre
            concentracion := medicamento.concentracion
            viaAdministracion := medicamento.viaAdministracion
            dosisPrescrita := mezclaData.dosisPrescrita
            unidadDosis := mezclaData.unidadDosis }
        envase :=
          { id := mezclaData.envaseId
            tipo := envase.tipo
            nombre := some envase.tipo }
        vehiculo :=
          { id := mezclaData.vehiculoId
            nombre := vehiculo.nombre
            volumenVehiculo := volumenVehiculo }
        calculos :=
          { volumenExtraer := resultados.volumenExtraer
            volumenMezcla := volumenMezcla
            volumenVehiculo := volumenVehiculo
            volumenTotal := volumenTotal
            unidadesInsumo := resultados.unidadesInsumo }
        loteMezcla := loteMezcla
        fechaVencimiento := fechaVencimiento
        cantidadMezclas := mezclaData.cantidadMezclas.getD 1 }

/-- The `for` loop of ProductionService.createProduction over the mix
inputs, threading the index only into the random lot-token source
`genLote`. The first failing mix aborts the whole creation. -/
def buildMezclas (cat : Catalog) (lineaProduccion : Linea)
    (fechaProduccion now : ℚ) (genLote : ℕ → String) :
    ℕ → List CreateMezclaDTO → Except ResponseError (List Mezcla)
  | _, [] => .ok []
  | idx, mezclaData :: rest =>
    match buildMezcla cat lineaProduccion fechaProduccion now (genLote idx) mezclaData with
    | .error e => .error e
    | .ok mezcla =>
      match buildMezclas cat lineaProduccion fechaProduccion now genLote (idx + 1) rest with
      | .error e => .error e
      | .ok mezclas => .ok (mezcla :: mezclas)

/-- ProductionService.createProduction: reject an empty mix list, default
the production date to now, build every mix, then create the document in
state CREADO with only the `creado` timestamp and only the `creadoPor`
actor set. The random order code is supplied as `codigo` and the random
per-mix lot tokens as `genLote`. The subsequent CREATE audit append and the
populate re-read do not alter the document and are not modelled here. -/
def createProduction (cat : Catalog) (data : CreateProductionDTO)
    (userId : ℕ) (now : ℚ) (codigo : String) (genLote : ℕ → String) :
    Except ResponseError Production :=
  if data.mezclas.isEmpty then
    .error ⟨400, "Debe incluir al menos una mezcla"⟩
  else
    let fechaProduccion := data.fechaProduccion.getD now
    match buildMezclas cat data.lineaProduccion fechaProduccion now genLote 0 data.mezclas with
    | .error e => .error e
    | .ok mezclas =>
      .ok
        { codigo := codigo
          fechaProduccion := fechaProduccion
          lineaProduccion := data.lineaProduccion
          cantidadMezclas := mezclas.length
          mezclas := mezclas
          estado := CREADO
          timestamps := { creado := now }
          creadoPor := userId }

/-- State of the audit collection together with its console error channel
(the `console.error` sink of the catch block). -/
structure AuditState where
  records : List AuditRecord
  console : List String
deriving DecidableEq, Repr

/-- The awaited `AuditLog.create` call, which may fail at the storage
layer; `storageFails` models the storage outcome of this invocation. -/
def auditLogCreate (storageFails : Bool) (st : AuditState) (r : AuditRecord) :
    Except String AuditState :=
  if storageFails then .error "storage failure"
  else .ok { st with records := r :: st.records }

/-- AuditService.logAction: wraps the insert in try/catch; a storage
failure is caught and reported only on the console channel, so the caller
always gets a normal return. -/
def logAction (storageFails : Bool) (st : AuditState) (entidad : String)
    (entidadId : ℕ) (accion : String) (cambios : List (String × String))
    (usuarioId : ℕ) (now : ℚ) : Except String AuditState :=
  match auditLogCreate storageFails st ⟨entidad, entidadId, accion, cambios, usuarioId, now⟩ with
  | .ok st1 => .ok st1
  | .error e => .ok { st with console := ("Error al registrar auditoría: " ++ e) :: st.console }

/-- Position of a state in the canonical lifecycle ordering. -/
def stateIdx : ProductionState → ℕ
  | CREADO => 0
  | VALIDADO => 1
  | CALCULADO => 2
  | PROGRAMADO => 3
  | PRODUCIDO => 4
  | QC => 5
  | ETIQUETADO => 6
  | FINALIZADO => 7

/-- Whether the stage-timestamp map holds an entry for a state (`creado` is
a required field, hence always present). -/
def hasStageTimestamp (p : Production) : ProductionState → Bool
  | CREADO => true
  | VALIDADO => p.timestamps.validado.isSome
  | CALCULADO => p.timestamps.calculado.isSome
  | PROGRAMADO => p.timestamps.programado.isSome
  | PRODUCIDO => p.timestamps.producido.isSome
  | QC => p.timestamps.qc.isSome
  | ETIQUETADO => p.timestamps.etiquetado.isSome
  | FINALIZADO => p.timestamps.finalizado.isSome

/-- Whether a stage-actor field holds an entry for a state (`creadoPor` is
a required field, hence always present). -/
def hasStageActor (p : Production) : ProductionState → Bool
  | CREADO => true
  | VALIDADO => p.validadoPor.isSome
  | CALCULADO => p.calculadoPor.isSome
  | PROGRAMADO => p.programadoPor.isSome
  | PRODUCIDO => p.producidoPor.isSome
  | QC => p.qcPor.isSome
  | ETIQUETADO => p.etiquetadoPor.isSome
  | FINALIZADO => p.finalizadoPor.isSome

/-- The stage-entry invariant of the data model: an entry exists for the
current state and every state strictly before it, and for no state after
it. -/
def StageInvariant (p : Production) : Prop :=
  ∀ s, (hasStageTimestamp p s = true ↔ stateIdx s ≤ stateIdx p.estado) ∧
       (hasStageActor p s = true ↔ stateIdx s ≤ stateIdx p.estado)

/-- Orders reachable through the modelled operations: a freshly created
order, or the successful transition of a stored reachable order. -/
inductive ReachableProduction : Production → Prop where
  | created (cat : Catalog) (data : CreateProductionDTO) (userId : ℕ)
      (now : ℚ) (codigo : String) (genLote : ℕ → String) (p : Production) :
      createProduction cat data userId now codigo genLote = .ok p →
      ReachableProduction p
  | step (db : WorkflowDB) (productionId : ℕ) (newState : ProductionState)
      (userId : ℕ) (userRole : UserRole) (now : ℚ) (p p1 : Production)
      (db1 : WorkflowDB) :
      ReachableProduction p →
      findProduction db productionId = some p →
      transitionToState db productionId newState userId userRole now = (.ok p1, db1) →
      ReachableProduction p1

/-- The single-successor chain named by the spec:
CREADO → VALIDADO → CALCULADO → PROGRAMADO → PRODUCIDO → QC → ETIQUETADO →
FINALIZADO, with no successor for the terminal state. Stated from the
spec's wording so the code's transition table can be compared against it. -/
def chainSuccessor : ProductionState → Option ProductionState
  | CREADO => some VALIDADO
  | VALIDADO => some CALCULADO
  | CALCULADO => some PROGRAMADO
  | PROGRAMADO => some PRODUCIDO
  | PRODUCIDO => some QC
  | QC => some ETIQUETADO
  | ETIQUETADO => some FINALIZADO
  | FINALIZADO => none

/-- Concrete catalog fixture: one enabled medicine with concentration
"50mg/ml" and one 10 ml presentation, one enabled laboratory, one vehicle
compatible with both lines, one container, one stability record for the
tuple (1,1,1,1) with 48 stability hours. -/
def fixtureCat : Catalog :=
  { medicines := [(1,
      { nombre := "Medicina A"
        principioActivo := "A"
        concentracion := "50mg/ml"
        presentaciones := [{ volumen := 10, unidad := "ml", cantidad := 1, tipoEnvase := "vial" }]
        viaAdministracion := "IV"
        lineaProductiva := Linea.ONCO
        habilitado := true })]
    labs := [(1, { nombre := "Lab A", pais := "CO", habilitado := true })]
    vehicles := [(1, { nombre := "SSN 0.9", compatibleConLinea := [Linea.ONCO, Linea.ESTERIL] })]
    containers := [(1, { tipo := "bolsa", volumenMax := 100, material := "PVC" })]
    stabilities := [{ medicamentoId := 1, laboratorioId := 1, vehiculoId := 1,
                      envaseId := 1, horasEstabilidad := 48, condiciones := "refrigerado" }] }

/-- Concrete mix request fixture: 100 mg of medicine 1 in vehicle 1 and
container 1. -/
def fixtureMezclaDTO : CreateMezclaDTO :=
  { paciente := { nombre := "Paciente", documento := "123",
                  aseguradora := "EPS", diagnostico := "DX" }
    medicamentoId := 1
    vehiculoId := 1
    envaseId := 1
    dosisPrescrita := 100
    unidadDosis := "mg"
    cantidadMezclas := none }

/-- Concrete creation request fixture: one mix of 100 mg against the
fixture catalog, explicit production date 0. -/
def fixtureDTO : CreateProductionDTO :=
  { lineaProduccion := Linea.ONCO
    fechaProduccion := some 0
    mezclas := [fixtureMezclaDTO] }

/-- Fixed lot-token source used in concrete runs. -/
def fixtureGenLote : ℕ → String := fun _ => "HG-LOTE"

/-- Catalog fixture for the aggregate-validation example: the medicine is
disabled and the vehicle is incompatible with the ONCO line, everything
else is valid. -/
def fixtureCatTwoViolations : Catalog :=
  { medicines := [(1,
      { nombre := "Medicina A"
        principioActivo := "A"
        concentracion := "50mg/ml"
        presentaciones := [{ volumen := 10, unidad := "ml", cantidad := 1, tipoEnvase := "vial" }]
        viaAdministracion := "IV"
        lineaProductiva := Linea.ONCO
        habilitado := false })]
    labs := [(1, { nombre := "Lab A", pais := "CO", habilitado := true })]
    vehicles := [(1, { nombre := "SSN 0.9", compatibleConLinea := [Linea.ESTERIL] })]
    containers := [(1, { tipo := "bolsa", volumenMax := 100, material := "PVC" })]
    stabilities := [{ medicamentoId := 1, laboratorioId := 1, vehiculoId := 1,
                      envaseId := 1, horasEstabilidad := 48, condiciones := "refrigerado" }] }

/-- Two stability records sharing (medicine, vehicle, container) but owned
by different laboratories: laboratory 8 does not exist in the catalog,
laboratory 1 does. Listed with the lab-8 record first. -/
def fixtureCatTwoStabilities : Catalog :=
  { fixtureCat with
    stabilities := [{ medicamentoId := 1, laboratorioId := 8, vehiculoId := 1,
                      envaseId := 1, horasEstabilidad := 72, condiciones := "ambiente" },
                    { medicamentoId := 1, laboratorioId := 1, vehiculoId := 1,
                      envaseId := 1, horasEstabilidad := 48, condiciones := "refrigerado" }] }

/-- The same record set as `fixtureCatTwoStabilities`, listed in the other
order. -/
def fixtureCatTwoStabilitiesRev : Catalog :=
  { fixtureCat with
    stabilities := [{ medicamentoId := 1, laboratorioId := 1, vehiculoId := 1,
                      envaseId := 1, horasEstabilidad := 48, condiciones := "refrigerado" },
                    { medicamentoId := 1, laboratorioId := 8, vehiculoId := 1,
                      envaseId := 1, horasEstabilidad := 72, condiciones := "ambiente" }] }

/-- A stored order sitting in state CREADO with only the creation stamps. -/
def orderCREADO : Production :=
  { codigo := "PROD-20250101-0001"
    fechaProduccion := 0
    lineaProduccion := Linea.ONCO
    cantidadMezclas := 0
    mezclas := []
    estado := CREADO
    timestamps := { creado := 0 }
    creadoPor := 1 }

/-- A one-order store holding `orderCREADO` under id 1 with an empty audit
log. -/
def fixtureDB : WorkflowDB :=
  { productions := [(1, orderCREADO)], auditLog := [] }

/-- The mix value built by the concrete `createProduction` run on the
fixture catalog: 100 mg at 50mg/ml extracts 2 ml, one supply unit, fixed
24-hour expiry on the production date 0. -/
def fixtureMezcla : Mezcla :=
  { paciente := { nombre := "Paciente", documento := "123",
                  aseguradora := "EPS", diagnostico := "DX" }
    medicamento := { id := 1, nombre := "Medicina A", concentracion := "50mg/ml",
                     viaAdministracion := "IV", dosisPrescrita := 100, unidadDosis := "mg" }
    envase := { id := 1, tipo := "bolsa", nombre := some "bolsa" }
    vehiculo := { id := 1, nombre := "SSN 0.9", volumenVehiculo := 0 }
    calculos := { volumenExtraer := 2, volumenMezcla := 2, volumenVehiculo := 0,
                  volumenTotal := 2, unidadesInsumo := 1 }
    loteMezcla := "HG-LOTE"
    fechaVencimiento := 24
    cantidadMezclas := 1 }

/-- The order produced by the concrete successful `createProduction` run
on the fixture catalog. -/
def fixtureCreated : Production :=
  { codigo := "PROD-X"
    fechaProduccion := 0
    lineaProduccion := Linea.ONCO
    cantidadMezclas := 1
    mezclas := [fixtureMezcla]
    estado := CREADO
    timestamps := { creado := 0 }
    creadoPor := 9 }

/-- First interleaved write of the race run: actor 10 at instant 5, after
reading state CREADO. -/
def raceW1 : Except ResponseError Production × WorkflowDB :=
  transitionWritePhase fixtureDB 1 CREADO VALIDADO 10 5

/-- Second interleaved write of the race run: actor 20 at instant 6,
having also read state CREADO before the first write landed. -/
def raceW2 : Except ResponseError Production × WorkflowDB :=
  transitionWritePhase raceW1.2 1 CREADO VALIDADO 20 6

theorem storeProduction_auditLog (db : WorkflowDB) (productionId : ℕ) (p : Production) :
    (storeProduction db productionId p).auditLog = db.auditLog := rfl

theorem lookup_map_overwrite (l : List (ℕ × Production)) (k : ℕ) (p : Production)
    (h : (l.lookup k).isSome) :
    (l.map (fun kv => if kv.1 = k then (kv.1, p) else kv)).lookup k = some p := by
  induction l with
  | nil => simp [List.lookup] at h
  | cons kv rest ih =>
    obtain ⟨k1, v1⟩ := kv
    rw [List.map_cons]
    dsimp only
    by_cases hk : k1 = k
    · subst hk
      rw [if_pos rfl]
      simp [List.lookup]
    · rw [if_neg hk]
      have hne : (k == k1) = false := by
        simp only [beq_eq_false_iff_ne, ne_eq]
        intro hkk
        exact hk hkk.symm
      simp only [List.lookup, hne] at h
      simp only [List.lookup, hne]
      exact ih h

theorem findProduction_store_self (db : WorkflowDB) (productionId : ℕ) (p : Production)
    (h : (findProduction db productionId).isSome) :
    findProduction (storeProduction db productionId p) productionId = some p :=
  lookup_map_overwrite db.productions productionId p h

theorem transitionReadPhase_ok_iff (db : WorkflowDB) (productionId : ℕ)
    (newState : ProductionState) (userRole : UserRole) (p : Production) :
    transitionReadPhase db productionId newState userRole = .ok p ↔
      findProduction db productionId = some p ∧
        newState ∈ STATE_TRANSITIONS p.estado ∧
        userRole ∈ ROLE_PERMISSIONS newState := by
  unfold transitionReadPhase validateTransition validateRolePermission
  cases h : findProduction db productionId with
  | none => simp
  | some q =>
    dsimp only
    by_cases h1 : newState ∈ STATE_TRANSITIONS q.estado
    · rw [if_pos h1]
      by_cases h2 : userRole ∈ ROLE_PERMISSIONS newState
      · rw [if_pos h2]
        dsimp only
        constructor
        · intro h3
          injection h3 with h3
          subst h3
          exact ⟨rfl, h1, h2⟩
        · rintro ⟨h3, _, _⟩
          injection h3 with h3
          subst h3
          rfl
      · rw [if_neg h2]
        dsimp only
        constructor
        · intro h3; cases h3
        · rintro ⟨h3, _, h5⟩
          injection h3 with h3
          subst h3
          exact absurd h5 h2
    · rw [if_neg h1]
      dsimp only
      constructor
      · intro h3; cases h3
      · rintro ⟨h3, h4, _⟩
        injection h3 with h3
        subst h3
        exact absurd h4 h1

theorem transitionWritePhase_found (db : WorkflowDB) (productionId : ℕ)
    (previousState newState : ProductionState) (userId : ℕ) (now : ℚ)
    (p : Production) (h : findProduction db productionId = some p) :
    transitionWritePhase db productionId previousState newState userId now =
      (.ok (applyUpdateData p newState userId now),
       { productions := (storeProduction db productionId (applyUpdateData p newState userId now)).productions
         auditLog := transitionAuditRecord productionId previousState newState userId now :: db.auditLog }) := by
  unfold transitionWritePhase
  rw [h]
  rfl

theorem transitionToState_ok_shape (db : WorkflowDB) (productionId : ℕ)
    (newState : ProductionState) (userId : ℕ) (userRole : UserRole) (now : ℚ)
    (p1 : Production) (db1 : WorkflowDB)
    (h : transitionToState db productionId newState userId userRole now = (.ok p1, db1)) :
    ∃ p, findProduction db productionId = some p ∧
      newState ∈ STATE_TRANSITIONS p.estado ∧
      userRole ∈ ROLE_PERMISSIONS newState ∧
      p1 = applyUpdateData p newState userId now ∧
      db1 = { productions := (storeProduction db productionId p1).productions
              auditLog := transitionAuditRecord productionId p.estado newState userId now :: db.auditLog } := by
  unfold transitionToState at h
  cases hr : transitionReadPhase db productionId newState userRole with
  | error e => rw [hr] at h; cases h
  | ok p =>
    rw [hr] at h
    dsimp only at h
    obtain ⟨hfind, hmem, hrole⟩ := (transitionReadPhase_ok_iff db productionId newState userRole p).mp hr
    rw [transitionWritePhase_found db productionId p.estado newState userId now p hfind] at h
    have h1 := congrArg Prod.fst h
    have h2 := congrArg Prod.snd h
    dsimp only at h1 h2
    injection h1 with h1
    exact ⟨p, hfind, hmem, hrole, h1.symm, by rw [← h2, ← h1]⟩

theorem transitionToState_error_db (db : WorkflowDB) (productionId : ℕ)
    (newState : ProductionState) (userId : ℕ) (userRole : UserRole) (now : ℚ)
    (e : ResponseError) (db1 : WorkflowDB)
    (h : transitionToState db productionId newState userId userRole now = (.error e, db1)) :
    db1 = db := by
  unfold transitionToState at h
  cases hr : transitionReadPhase db productionId newState userRole with
  | error e1 =>
    rw [hr] at h
    dsimp only at h
    exact (congrArg Prod.snd h).symm
  | ok p =>
    rw [hr] at h
    dsimp only at h
    obtain ⟨hfind, _, _⟩ := (transitionReadPhase_ok_iff db productionId newState userRole p).mp hr
    rw [transitionWritePhase_found db productionId p.estado newState userId now p hfind] at h
    have h1 := congrArg Prod.fst h
    dsimp only at h1
    cases h1

theorem createProduction_ok_shape (cat : Catalog) (data : CreateProductionDTO)
    (userId : ℕ) (now : ℚ) (codigo : String) (genLote : ℕ → String) (p : Production)
    (h : createProduction cat data userId now codigo genLote = .ok p) :
    data.mezclas.isEmpty = false ∧
    ∃ mezclas,
      buildMezclas cat data.lineaProduccion (data.fechaProduccion.getD now) now genLote 0 data.mezclas = .ok mezclas ∧
      p = { codigo := codigo
            fechaProduccion := data.fechaProduccion.getD now
            lineaProduccion := data.lineaProduccion
            cantidadMezclas := mezclas.length
            mezclas := mezclas
            estado := CREADO
            timestamps := { creado := now }
            creadoPor := userId } := by
  unfold createProduction at h
  cases he : data.mezclas.isEmpty with
  | true =>
    rw [he] at h
    simp only [if_true] at h
    cases h
  | false =>
    rw [he] at h
    simp only [Bool.false_eq_true, if_false] at h
    cases hb : buildMezclas cat data.lineaProduccion (data.fechaProduccion.getD now) now genLote 0 data.mezclas with
    | error e => rw [hb] at h; cases h
    | ok mezclas =>
      rw [hb] at h
      dsimp only at h
      injection h with h
      exact ⟨rfl, mezclas, rfl, h.symm⟩

theorem createProduction_stageInvariant (cat : Catalog) (data : CreateProductionDTO)
    (userId : ℕ) (now : ℚ) (codigo : String) (genLote : ℕ → String) (p : Production)
    (h : createProduction cat data userId now codigo genLote = .ok p) :
    StageInvariant p := by
  obtain ⟨-, mezclas, -, hp⟩ := createProduction_ok_shape cat data userId now codigo genLote p h
  subst hp
  intro s
  cases s <;> simp [hasStageTimestamp, hasStageActor, stateIdx]

theorem stageInvariant_applyUpdateData (p : Production) (newState : ProductionState)
    (userId : ℕ) (now : ℚ) (inv : StageInvariant p)
    (hmem : newState ∈ STATE_TRANSITIONS p.estado) :
    StageInvariant (applyUpdateData p newState userId now) := by
  have h0 := inv CREADO
  have h1 := inv VALIDADO
  have h2 := inv CALCULADO
  have h3 := inv PROGRAMADO
  have h4 := inv PRODUCIDO
  have h5 := inv QC
  have h6 := inv ETIQUETADO
  have h7 := inv FINALIZADO
  cases hE : p.estado <;>
    rw [hE] at hmem h0 h1 h2 h3 h4 h5 h6 h7 <;>
    simp only [STATE_TRANSITIONS, List.mem_singleton, List.not_mem_nil] at hmem <;>
    try subst hmem
  all_goals
    intro s
    cases s <;>
      simp_all [hasStageTimestamp, hasStageActor, stateIdx, applyUpdateData,
        setStageActor, setStageTimestamp, hE]

theorem reachable_stageInvariant (p : Production) (h : ReachableProduction p) :
    StageInvariant p := by
  induction h with
  | created cat data userId now codigo genLote q hc =>
    exact createProduction_stageInvariant cat data userId now codigo genLote q hc
  | step db productionId newState userId userRole now q q1 db1 hreach hfind htrans ih =>
    obtain ⟨r, hfindr, hmem, hrole, hq1, hdb1⟩ :=
      transitionToState_ok_shape db productionId newState userId userRole now q1 db1 htrans
    rw [hfindr] at hfind
    injection hfind with hfind
    subst hfind
    subst hq1
    exact stageInvariant_applyUpdateData r newState userId now ih hmem

theorem mem_STATE_TRANSITIONS_iff (currentState targetState : ProductionState) :
    targetState ∈ STATE_TRANSITIONS currentState ↔
      chainSuccessor currentState = some targetState := by
  cases currentState <;> simp [STATE_TRANSITIONS, chainSuccessor, eq_comm]

theorem applyUpdateData_estado (p : Production) (newState : ProductionState)
    (userId : ℕ) (now : ℚ) : (applyUpdateData p newState userId now).estado = newState := by
  cases newState <;> rfl

theorem applyUpdateData_mezclas (p : Production) (newState : ProductionState)
    (userId : ℕ) (now : ℚ) : (applyUpdateData p newState userId now).mezclas = p.mezclas := by
  cases newState <;> rfl

theorem applyUpdateData_overwrite (p : Production) (newState : ProductionState)
    (userId1 : ℕ) (now1 : ℚ) (userId2 : ℕ) (now2 : ℚ) :
    applyUpdateData (applyUpdateData p newState userId1 now1) newState userId2 now2 =
      applyUpdateData p newState userId2 now2 := by
  cases newState <;> rfl

theorem validateMedicine_errors_iff (cat : Catalog) (medicamentoId : ℕ) :
    (validateMedicine cat medicamentoId).errors = [] ↔
      (validateMedicine cat medicamentoId).isValid = true := by
  unfold validateMedicine
  cases h : cat.medicines.lookup medicamentoId <;> dsimp only
  · simp
  · split <;> simp

theorem validateLab_errors_iff (cat : Catalog) (laboratorioId : ℕ) :
    (validateLab cat laboratorioId).errors = [] ↔
      (validateLab cat laboratorioId).isValid = true := by
  unfold validateLab
  cases h : cat.labs.lookup laboratorioId <;> dsimp only
  · simp
  · split <;> simp

theorem validateVehicle_errors_iff (cat : Catalog) (vehiculoId : ℕ) (lineaProductiva : Linea) :
    (validateVehicle cat vehiculoId lineaProductiva).errors = [] ↔
      (validateVehicle cat vehiculoId lineaProductiva).isValid = true := by
  unfold validateVehicle
  cases h : cat.vehicles.lookup vehiculoId <;> dsimp only
  · simp
  · split <;> simp

theorem validateContainer_errors_iff (cat : Catalog) (envaseId : ℕ) :
    (validateContainer cat envaseId).errors = [] ↔
      (validateContainer cat envaseId).isValid = true := by
  unfold validateContainer
  cases h : cat.containers.lookup envaseId <;> simp

theorem validateStability_errors_iff (cat : Catalog) (data : ProductionValidationData) :
    (validateStability cat data).errors = [] ↔
      (validateStability cat data).isValid = true := by
  unfold validateStability
  cases h : stabilityFindOne4 cat data.medicamentoId data.laboratorioId data.vehiculoId data.envaseId <;>
    simp

theorem validation_block_eq (v : ValidationResult)
    (hiff : v.errors = [] ↔ v.isValid = true) :
    (if v.isValid then ([] : List String) else v.errors) = v.errors := by
  cases hv : v.isValid
  · simp
  · simp [hiff.mpr hv]

theorem validation_block_nil_iff (v : ValidationResult)
    (hiff : v.errors = [] ↔ v.isValid = true) :
    ((if v.isValid then ([] : List String) else v.errors) = []) ↔ v.isValid = true := by
  cases hv : v.isValid
  · simp only [Bool.false_eq_true, if_false]
    constructor
    · intro h
      exact absurd (hiff.mp h) (by simp [hv])
    · intro h
      cases h
  · simp

theorem collectDomainErrors_eq (cat : Catalog) (data : ProductionValidationData) :
    collectDomainErrors cat data =
      (validateMedicine cat data.medicamentoId).errors ++
      (validateLab cat data.laboratorioId).errors ++
      (validateVehicle cat data.vehiculoId data.lineaProductiva).errors ++
      (validateContainer cat data.envaseId).errors ++
      (validateStability cat data).errors := by
  unfold collectDomainErrors
  dsimp only
  rw [validation_block_eq _ (validateMedicine_errors_iff cat data.medicamentoId),
      validation_block_eq _ (validateLab_errors_iff cat data.laboratorioId),
      validation_block_eq _ (validateVehicle_errors_iff cat data.vehiculoId data.lineaProductiva),
      validation_block_eq _ (validateContainer_errors_iff cat data.envaseId),
      validation_block_eq _ (validateStability_errors_iff cat data)]

theorem collectDomainErrors_nil_iff (cat : Catalog) (data : ProductionValidationData) :
    collectDomainErrors cat data = [] ↔
      ((validateMedicine cat data.medicamentoId).isValid = true ∧
       (validateLab cat data.laboratorioId).isValid = true ∧
       (validateVehicle cat data.vehiculoId data.lineaProductiva).isValid = true ∧
       (validateContainer cat data.envaseId).isValid = true ∧
       (validateStability cat data).isValid = true) := by
  unfold collectDomainErrors
  dsimp only
  simp only [List.append_eq_nil]
  rw [validation_block_nil_iff _ (validateMedicine_errors_iff cat data.medicamentoId),
      validation_block_nil_iff _ (validateLab_errors_iff cat data.laboratorioId),
      validation_block_nil_iff _ (validateVehicle_errors_iff cat data.vehiculoId data.lineaProductiva),
      validation_block_nil_iff _ (validateContainer_errors_iff cat data.envaseId),
      validation_block_nil_iff _ (validateStability_errors_iff cat data)]
  tauto

theorem buildMezcla_ok_fields (cat : Catalog) (lineaProduccion : Linea)
    (fechaProduccion now : ℚ) (loteMezcla : String) (mezclaData : CreateMezclaDTO)
    (mz : Mezcla) (h : buildMezcla cat lineaProduccion fechaProduccion now loteMezcla mezclaData = .ok mz) :
    mz.fechaVencimiento = fechaProduccion + 24 ∧
    mz.calculos.volumenTotal = mz.calculos.volumenExtraer + mz.calculos.volumenVehiculo ∧
    mz.loteMezcla = loteMezcla := by
  unfold buildMezcla at h
  cases h1 : cat.medicines.lookup mezclaData.medicamentoId with
  | none => rw [h1] at h; cases h
  | some medicamento =>
  rw [h1] at h
  dsimp only at h
  cases h2 : cat.vehicles.lookup mezclaData.vehiculoId with
  | none => rw [h2] at h; cases h
  | some vehiculo =>
  rw [h2] at h
  dsimp only at h
  cases h3 : cat.containers.lookup mezclaData.envaseId with
  | none => rw [h3] at h; cases h
  | some envase =>
  rw [h3] at h
  dsimp only at h
  cases h4 : stabilityFindOne3 cat mezclaData.medicamentoId mezclaData.vehiculoId mezclaData.envaseId with
  | none => rw [h4] at h; cases h
  | some estabilidad =>
  rw [h4] at h
  dsimp only at h
  cases h5 : validateCompleteDomain cat
      { medicamentoId := mezclaData.medicamentoId
        laboratorioId := estabilidad.laboratorioId
        vehiculoId := mezclaData.vehiculoId
        envaseId := mezclaData.envaseId
        lineaProductiva := lineaProduccion } with
  | error e => rw [h5] at h; cases h
  | ok vr =>
  rw [h5] at h
  dsimp only at h
  cases h6 : calculateFromDatabase cat now loteMezcla mezclaData.medicamentoId
      estabilidad.laboratorioId mezclaData.vehiculoId mezclaData.envaseId
      mezclaData.dosisPrescrita mezclaData.unidadDosis with
  | error e => rw [h6] at h; cases h
  | ok resultados =>
  rw [h6] at h
  dsimp only at h
  injection h with h
  subst h
  refine ⟨rfl, ?_, rfl⟩
  dsimp only
  ring

theorem buildMezclas_ok_props (cat : Catalog) (lineaProduccion : Linea)
    (fechaProduccion now : ℚ) (genLote : ℕ → String) :
    ∀ (l : List CreateMezclaDTO) (idx : ℕ) (ms : List Mezcla),
      buildMezclas cat lineaProduccion fechaProduccion now genLote idx l = .ok ms →
      ms.length = l.length ∧
      ∀ mz ∈ ms, mz.fechaVencimiento = fechaProduccion + 24 ∧
        mz.calculos.volumenTotal = mz.calculos.volumenExtraer + mz.calculos.volumenVehiculo := by
  intro l
  induction l with
  | nil =>
    intro idx ms h
    simp only [buildMezclas] at h
    injection h with h
    subst h
    simp
  | cons d rest ih =>
    intro idx ms h
    simp only [buildMezclas] at h
    cases hb : buildMezcla cat lineaProduccion fechaProduccion now (genLote idx) d with
    | error e => rw [hb] at h; cases h
    | ok mz =>
    rw [hb] at h
    cases hr : buildMezclas cat lineaProduccion fechaProduccion now genLote (idx + 1) rest with
    | error e => rw [hr] at h; cases h
    | ok ms1 =>
    rw [hr] at h
    dsimp only at h
    injection h with h
    subst h
    obtain ⟨hlen, hall⟩ := ih (idx + 1) ms1 hr
    obtain ⟨hfv, hvol, -⟩ := buildMezcla_ok_fields cat lineaProduccion fechaProduccion now (genLote idx) d mz hb
    refine ⟨by simp [hlen], ?_⟩
    rintro mz1 hmem
    rcases List.mem_cons.mp hmem with hmz | hmz
    · subst hmz
      exact ⟨hfv, hvol⟩
    · exact hall mz1 hmz

theorem transitionToState_of_readPhase_error (db : WorkflowDB) (productionId : ℕ)
    (newState : ProductionState) (userId : ℕ) (userRole : UserRole) (now : ℚ)
    (e : ResponseError)
    (h : transitionReadPhase db productionId newState userRole = .error e) :
    transitionToState db productionId newState userId userRole now = (.error e, db) := by
  unfold transitionToState
  rw [h]

theorem transitionReadPhase_illegal (db : WorkflowDB) (productionId : ℕ)
    (newState : ProductionState) (userRole : UserRole) (p : Production)
    (hfind : findProduction db productionId = some p)
    (hne : newState ∉ STATE_TRANSITIONS p.estado) :
    transitionReadPhase db productionId newState userRole =
      .error ⟨400, "Transición no permitida: no se puede pasar de " ++
        p.estado.name ++ " a " ++ newState.name⟩ := by
  unfold transitionReadPhase validateTransition
  rw [hfind]
  dsimp only
  rw [if_neg hne]

theorem transitionReadPhase_forbidden (db : WorkflowDB) (productionId : ℕ)
    (newState : ProductionState) (userRole : UserRole) (p : Production)
    (hfind : findProduction db productionId = some p)
    (hmem : newState ∈ STATE_TRANSITIONS p.estado)
    (hrole : userRole ∉ ROLE_PERMISSIONS newState) :
    transitionReadPhase db productionId newState userRole =
      .error ⟨403, "El rol " ++ userRole.name ++
        " no tiene permisos para realizar acciones en el estado " ++ newState.name⟩ := by
  unfold transitionReadPhase validateTransition validateRolePermission
  rw [hfind]
  dsimp only
  rw [if_pos hmem]
  dsimp only
  rw [if_neg hrole]

theorem validateCompleteDomain_ok_iff (cat : Catalog) (data : ProductionValidationData) :
    validateCompleteDomain cat data = .ok ⟨true, []⟩ ↔
      collectDomainErrors cat data = [] := by
  unfold validateCompleteDomain
  dsimp only
  by_cases hc : collectDomainErrors cat data = []
  · rw [hc]
    simp
  · rw [if_pos (by simpa using List.length_pos.mpr hc)]
    simp [hc]

theorem validateCompleteDomain_error (cat : Catalog) (data : ProductionValidationData)
    (h : collectDomainErrors cat data ≠ []) :
    validateCompleteDomain cat data =
      .error ⟨400, "Validación fallida: " ++
        String.intercalate "; " (collectDomainErrors cat data)⟩ := by
  unfold validateCompleteDomain
  dsimp only
  rw [if_pos (by simpa using List.length_pos.mpr h)]

theorem fx_ratFromDigits : ratFromDigits ['5', '0'] [] = 50 := by
  norm_num [ratFromDigits, show digitsToNat ['5', '0'] = 50 from rfl,
    show digitsToNat [] = 0 from rfl]

theorem fx_parse : parseConcentracion "50mg/ml" = some (50, "mg") := by
  have h : parseConcentracion "50mg/ml" = some (ratFromDigits ['5', '0'] [], "mg") := rfl
  rw [h, fx_ratFromDigits]

theorem fx_round2 : round2 ((100 : ℚ) / 50) = 2 := by
  norm_num [round2, jsRound, Int.floor_eq_iff]

theorem fx_round2Final : round2 ((2 : ℚ) + 0) = 2 := by
  norm_num [round2, jsRound, Int.floor_eq_iff]

theorem fx_volExtraer : calculateVolumenExtraer 100 "mg" "50mg/ml" = .ok 2 := by
  unfold calculateVolumenExtraer
  rw [fx_parse]
  dsimp only
  rw [show lowerString "mg" = "mg" from rfl]
  rw [if_neg (by decide : ¬ "mg" ≠ "mg")]
  rw [fx_round2]

theorem fx_unidades : calculateUnidadesInsumo 2 10 1 = .ok 1 := by
  unfold calculateUnidadesInsumo
  rw [if_neg (by norm_num : ¬ (10 : ℚ) ≤ 0)]
  rw [show (⌈(2 : ℚ) / 10 * 1⌉ : ℤ) = 1 by norm_num [Int.ceil_eq_iff]]

theorem fx_volFinal : calculateVolumenFinal 2 0 = 2 := by
  unfold calculateVolumenFinal
  exact fx_round2Final

theorem fx_fecha : calculateFechaVencimiento 0 48 = .ok 48 := by
  unfold calculateFechaVencimiento
  rw [if_neg (by norm_num : ¬ (48 : ℚ) ≤ 0)]
  norm_num

theorem fx_complete :
    calculateComplete 0 "HG-LOTE"
      { dosisPrescrita := 100, unidadDosis := "mg", concentracion := "50mg/ml",
        volumenPresentacion := 10, unidadesPresentacion := 1, horasEstabilidad := 48 } =
      .ok { volumenExtraer := 2, volumenFinal := 2, unidadesInsumo := 1,
            lote := "HG-LOTE", fechaVencimiento := 48 } := by
  unfold calculateComplete
  dsimp only
  rw [if_neg (by norm_num : ¬ (100 : ℚ) ≤ 0)]
  rw [fx_volExtraer]
  dsimp only
  rw [fx_unidades]
  dsimp only
  rw [fx_fecha]
  dsimp only
  rw [fx_volFinal]

theorem fx_fromDB :
    calculateFromDatabase fixtureCat 0 "HG-LOTE" 1 1 1 1 100 "mg" =
      .ok { volumenExtraer := 2, volumenFinal := 2, unidadesInsumo := 1,
            lote := "HG-LOTE", fechaVencimiento := 48 } := by
  have hbr : calculateFromDatabase fixtureCat 0 "HG-LOTE" 1 1 1 1 100 "mg" =
      calculateComplete 0 "HG-LOTE"
        { dosisPrescrita := 100, unidadDosis := "mg", concentracion := "50mg/ml",
          volumenPresentacion := 10, unidadesPresentacion := 1, horasEstabilidad := 48 } := rfl
  rw [hbr, fx_complete]

theorem fx_fromDBRev :
    calculateFromDatabase fixtureCatTwoStabilitiesRev 0 "HG-LOTE" 1 1 1 1 100 "mg" =
      .ok { volumenExtraer := 2, volumenFinal := 2, unidadesInsumo := 1,
            lote := "HG-LOTE", fechaVencimiento := 48 } := by
  have hbr : calculateFromDatabase fixtureCatTwoStabilitiesRev 0 "HG-LOTE" 1 1 1 1 100 "mg" =
      calculateComplete 0 "HG-LOTE"
        { dosisPrescrita := 100, unidadDosis := "mg", concentracion := "50mg/ml",
          volumenPresentacion := 10, unidadesPresentacion := 1, horasEstabilidad := 48 } := rfl
  rw [hbr, fx_complete]

theorem fx_buildMezcla :
    buildMezcla fixtureCat Linea.ONCO 0 0 "HG-LOTE" fixtureMezclaDTO = .ok fixtureMezcla := by
  have hbr : buildMezcla fixtureCat Linea.ONCO 0 0 "HG-LOTE" fixtureMezclaDTO =
      (match calculateFromDatabase fixtureCat 0 "HG-LOTE" 1 1 1 1 100 "mg" with
       | .error e => .error e
       | .ok resultados =>
         .ok { paciente := { nombre := "Paciente", documento := "123",
                             aseguradora := "EPS", diagnostico := "DX" }
               medicamento := { id := 1, nombre := "Medicina A", concentracion := "50mg/ml",
                                viaAdministracion := "IV", dosisPrescrita := 100,
                                unidadDosis := "mg" }
               envase := { id := 1, tipo := "bolsa", nombre := some "bolsa" }
               vehiculo := { id := 1, nombre := "SSN 0.9",
                             volumenVehiculo := resultados.volumenFinal - resultados.volumenExtraer }
               calculos := { volumenExtraer := resultados.volumenExtraer
                             volumenMezcla := resultados.volumenExtraer
                             volumenVehiculo := resultados.volumenFinal - resultados.volumenExtraer
                             volumenTotal := resultados.volumenFinal
                             unidadesInsumo := resultados.unidadesInsumo }
               loteMezcla := "HG-LOTE"
               fechaVencimiento := 0 + 24
               cantidadMezclas := 1 }) := rfl
  rw [hbr, fx_fromDB]
  dsimp only
  rw [show (2 : ℚ) - 2 = 0 by norm_num, show (0 : ℚ) + 24 = 24 by norm_num]
  rfl

theorem fx_buildMezclaRev :
    buildMezcla fixtureCatTwoStabilitiesRev Linea.ONCO 0 0 "HG-LOTE" fixtureMezclaDTO =
      .ok fixtureMezcla := by
  have hbr : buildMezcla fixtureCatTwoStabilitiesRev Linea.ONCO 0 0 "HG-LOTE" fixtureMezclaDTO =
      (match calculateFromDatabase fixtureCatTwoStabilitiesRev 0 "HG-LOTE" 1 1 1 1 100 "mg" with
       | .error e => .error e
       | .ok resultados =>
         .ok { paciente := { nombre := "Paciente", documento := "123",
                             aseguradora := "EPS", diagnostico := "DX" }
               medicamento := { id := 1, nombre := "Medicina A", concentracion := "50mg/ml",
                                viaAdministracion := "IV", dosisPrescrita := 100,
                                unidadDosis := "mg" }
               envase := { id := 1, tipo := "bolsa", nombre := some "bolsa" }
               vehiculo := { id := 1, nombre := "SSN 0.9",
                             volumenVehiculo := resultados.volumenFinal - resultados.volumenExtraer }
               calculos := { volumenExtraer := resultados.volumenExtraer
                             volumenMezcla := resultados.volumenExtraer
                             volumenVehiculo := resultados.volumenFinal - resultados.volumenExtraer
                             volumenTotal := resultados.volumenFinal
                             unidadesInsumo := resultados.unidadesInsumo }
               loteMezcla := "HG-LOTE"
               fechaVencimiento := 0 + 24
               cantidadMezclas := 1 }) := rfl
  rw [hbr, fx_fromDBRev]
  dsimp only
  rw [show (2 : ℚ) - 2 = 0 by norm_num, show (0 : ℚ) + 24 = 24 by norm_num]
  rfl

theorem fx_buildMezclas :
    buildMezclas fixtureCat Linea.ONCO 0 0 fixtureGenLote 0 [fixtureMezclaDTO] =
      .ok [fixtureMezcla] := by
  simp only [buildMezclas]
  rw [show fixtureGenLote 0 = "HG-LOTE" from rfl, fx_buildMezcla]

theorem fx_buildMezclasRev :
    buildMezclas fixtureCatTwoStabilitiesRev Linea.ONCO 0 0 fixtureGenLote 0 [fixtureMezclaDTO] =
      .ok [fixtureMezcla] := by
  simp only [buildMezclas]
  rw [show fixtureGenLote 0 = "HG-LOTE" from rfl, fx_buildMezclaRev]

theorem fx_createProduction :
    createProduction fixtureCat fixtureDTO 9 0 "PROD-X" fixtureGenLote = .ok fixtureCreated := by
  unfold createProduction
  rw [show fixtureDTO.mezclas.isEmpty = false from rfl]
  simp only [Bool.false_eq_true, if_false]
  rw [show fixtureDTO.lineaProduccion = Linea.ONCO from rfl,
      show fixtureDTO.fechaProduccion.getD 0 = 0 from rfl,
      show fixtureDTO.mezclas = [fixtureMezclaDTO] from rfl,
      fx_buildMezclas]
  rfl

theorem fx_createProductionRev :
    createProduction fixtureCatTwoStabilitiesRev fixtureDTO 9 0 "PROD-X" fixtureGenLote =
      .ok fixtureCreated := by
  unfold createProduction
  rw [show fixtureDTO.mezclas.isEmpty = false from rfl]
  simp only [Bool.false_eq_true, if_false]
  rw [show fixtureDTO.lineaProduccion = Linea.ONCO from rfl,
      show fixtureDTO.fechaProduccion.getD 0 = 0 from rfl,
      show fixtureDTO.mezclas = [fixtureMezclaDTO] from rfl,
      fx_buildMezclasRev]
  rfl

theorem fx_createProductionBad :
    createProduction fixtureCatTwoStabilities fixtureDTO 9 0 "PROD-X" fixtureGenLote =
      .error ⟨400, "Validación fallida: Laboratorio no encontrado"⟩ := rfl

/-- C4: for every current state and every target state that is not the
single permitted successor in the canonical chain (skips, backward moves,
and any move out of FINALIZADO included), `transitionToState` fails with
the 400 illegal-transition error naming both states and leaves the store
untouched; moreover the transition table admits exactly one successor per
non-terminal state and none for the terminal state. -/
theorem claim_C4_illegal_transition :
    (∀ s : ProductionState, STATE_TRANSITIONS s = (chainSuccessor s).toList) ∧
    (∀ s : ProductionState, s ≠ FINALIZADO → ∃ t, STATE_TRANSITIONS s = [t]) ∧
    STATE_TRANSITIONS FINALIZADO = [] ∧
    (∀ (db : WorkflowDB) (productionId : ℕ) (targetState : ProductionState)
       (userId : ℕ) (userRole : UserRole) (now : ℚ) (p : Production),
      findProduction db productionId = some p →
      chainSuccessor p.estado ≠ some targetState →
      transitionToState db productionId targetState userId userRole now =
        (.error ⟨400, "Transición no permitida: no se puede pasar de " ++
          p.estado.name ++ " a " ++ targetState.name⟩, db)) := by
  refine ⟨?_, ?_, rfl, ?_⟩
  · intro s
    cases s <;> rfl
  · intro s hs
    cases s
    case FINALIZADO => exact absurd rfl hs
    all_goals exact ⟨_, rfl⟩
  · intro db productionId targetState userId userRole now p hfind hne
    have hni : targetState ∉ STATE_TRANSITIONS p.estado := fun hmem =>
      hne ((mem_STATE_TRANSITIONS_iff p.estado targetState).mp hmem)
    exact transitionToState_of_readPhase_error db productionId targetState userId userRole now _
      (transitionReadPhase_illegal db productionId targetState userRole p hfind hni)

/-- Witness for C4 at a concrete input: skipping CREADO → CALCULADO fails
with the illegal-transition error and the store is unchanged. -/
theorem claim_C4_witness :
    transitionToState fixtureDB 1 CALCULADO 10 COORDINADOR 5 =
      (.error ⟨400, "Transición no permitida: no se puede pasar de CREADO a CALCULADO"⟩, fixtureDB) ∧
    (∃ t, STATE_TRANSITIONS CREADO = [t]) :=
  ⟨claim_C4_illegal_transition.2.2.2 fixtureDB 1 CALCULADO 10 COORDINADOR 5 orderCREADO rfl
      (by decide),
   claim_C4_illegal_transition.2.1 CREADO (by decide)⟩

/-- C5: the role-permission table is exactly the claimed one, and for any
(target state, role) pair with the role outside the target state's
permitted set, `transitionToState` fails with the 403 error naming the
offending role and state even when the state change is the legal
successor, leaving the store untouched. -/
theorem claim_C5_forbidden_role :
    ROLE_PERMISSIONS CREADO = [AUXILIAR, QUIMICO, COORDINADOR] ∧
    ROLE_PERMISSIONS VALIDADO = [QUIMICO, COORDINADOR] ∧
    ROLE_PERMISSIONS CALCULADO = [QUIMICO, COORDINADOR] ∧
    ROLE_PERMISSIONS PROGRAMADO = [COORDINADOR] ∧
    ROLE_PERMISSIONS PRODUCIDO = [QUIMICO, COORDINADOR] ∧
    ROLE_PERMISSIONS QC = [QUIMICO, COORDINADOR] ∧
    ROLE_PERMISSIONS ETIQUETADO = [AUXILIAR, QUIMICO, COORDINADOR] ∧
    ROLE_PERMISSIONS FINALIZADO = [COORDINADOR] ∧
    (∀ (db : WorkflowDB) (productionId : ℕ) (targetState : ProductionState)
       (userId : ℕ) (userRole : UserRole) (now : ℚ) (p : Production),
      findProduction db productionId = some p →
      targetState ∈ STATE_TRANSITIONS p.estado →
      userRole ∉ ROLE_PERMISSIONS targetState →
      transitionToState db productionId targetState userId userRole now =
        (.error ⟨403, "El rol " ++ userRole.name ++
          " no tiene permisos para realizar acciones en el estado " ++ targetState.name⟩, db)) := by
  refine ⟨rfl, rfl, rfl, rfl, rfl, rfl, rfl, rfl, ?_⟩
  intro db productionId targetState userId userRole now p hfind hmem hrole
  exact transitionToState_of_readPhase_error db productionId targetState userId userRole now _
    (transitionReadPhase_forbidden db productionId targetState userRole p hfind hmem hrole)

/-- Witness for C5 at a concrete input: CREADO → VALIDADO is the legal
successor, yet role AUXILIAR is rejected with the 403 error and the store
is unchanged. -/
theorem claim_C5_witness :
    transitionToState fixtureDB 1 VALIDADO 10 AUXILIAR 5 =
      (.error ⟨403, "El rol AUXILIAR no tiene permisos para realizar acciones en el estado VALIDADO"⟩, fixtureDB) :=
  claim_C5_forbidden_role.2.2.2.2.2.2.2.2 fixtureDB 1 VALIDADO 10 AUXILIAR 5 orderCREADO rfl
    (by decide) (by decide)

/-- C6: the aggregate validation collects the messages of all five checks
unconditionally, succeeds exactly when all five checks pass, signals one
aggregate 400 failure joining every violation otherwise, and the fixture
with a disabled medicine and an incompatible vehicle yields exactly the
two corresponding messages. -/
theorem claim_C6_validateAll :
    (∀ cat data, collectDomainErrors cat data =
      (validateMedicine cat data.medicamentoId).errors ++
      (validateLab cat data.laboratorioId).errors ++
      (validateVehicle cat data.vehiculoId data.lineaProductiva).errors ++
      (validateContainer cat data.envaseId).errors ++
      (validateStability cat data).errors) ∧
    (∀ cat data, validateCompleteDomain cat data = .ok ⟨true, []⟩ ↔
      ((validateMedicine cat data.medicamentoId).isValid = true ∧
       (validateLab cat data.laboratorioId).isValid = true ∧
       (validateVehicle cat data.vehiculoId data.lineaProductiva).isValid = true ∧
       (validateContainer cat data.envaseId).isValid = true ∧
       (validateStability cat data).isValid = true)) ∧
    (∀ cat data, collectDomainErrors cat data ≠ [] →
      validateCompleteDomain cat data =
        .error ⟨400, "Validación fallida: " ++
          String.intercalate "; " (collectDomainErrors cat data)⟩) ∧
    collectDomainErrors fixtureCatTwoViolations ⟨1, 1, 1, 1, Linea.ONCO⟩ =
      ["Medicamento no habilitado para producción",
       "Vehículo no compatible con línea ONCO"] := by
  refine ⟨collectDomainErrors_eq, ?_, validateCompleteDomain_error, rfl⟩
  intro cat data
  rw [validateCompleteDomain_ok_iff]
  exact collectDomainErrors_nil_iff cat data

/-- Witness for C6 at a concrete input: the two-violation fixture produces
a single aggregate 400 failure joining exactly the two messages. -/
theorem claim_C6_witness :
    validateCompleteDomain fixtureCatTwoViolations ⟨1, 1, 1, 1, Linea.ONCO⟩ =
      .error ⟨400, "Validación fallida: Medicamento no habilitado para producción; Vehículo no compatible con línea ONCO"⟩ :=
  claim_C6_validateAll.2.2.1 fixtureCatTwoViolations ⟨1, 1, 1, 1, Linea.ONCO⟩ (by decide)

/-- C8: every order reachable through creation and successful workflow
transitions carries a stage timestamp and a stage actor for its current
state and every earlier state, and for no later state. -/
theorem claim_C8_stage_entries (p : Production) (h : ReachableProduction p) :
    StageInvariant p :=
  reachable_stageInvariant p h

/-- Witness for C8 at a concrete input: the fixture creation run produces
an order satisfying the stage-entry invariant. -/
theorem claim_C8_witness : StageInvariant fixtureCreated :=
  claim_C8_stage_entries fixtureCreated
    (ReachableProduction.created fixtureCat fixtureDTO 9 0 "PROD-X" fixtureGenLote
      fixtureCreated fx_createProduction)

/-- C9: the audit append never throws to its caller: whatever the storage
outcome, `logAction` returns normally; a storage failure leaves the
records untouched and is surfaced only on the console error channel, while
a storage success appends the record. -/
theorem claim_C9_logAction_never_throws :
    ∀ (storageFails : Bool) (st : AuditState) (entidad : String) (entidadId : ℕ)
      (accion : String) (cambios : List (String × String)) (usuarioId : ℕ) (now : ℚ),
      logAction storageFails st entidad entidadId accion cambios usuarioId now =
        .ok (if storageFails then
              { st with console := "Error al registrar auditoría: storage failure" :: st.console }
             else
              { st with records := ⟨entidad, entidadId, accion, cambios, usuarioId, now⟩ :: st.records }) := by
  intro storageFails st entidad entidadId accion cambios usuarioId now
  cases storageFails <;> rfl

/-- C10: whenever `transitionToState` fails — order not found, illegal
transition, or forbidden role — the store is returned completely
unchanged: the order keeps its state, stage timestamps and stage actors,
and no audit record is appended. -/
theorem claim_C10_failure_no_effect :
    ∀ (db : WorkflowDB) (productionId : ℕ) (newState : ProductionState)
      (userId : ℕ) (userRole : UserRole) (now : ℚ) (e : ResponseError) (db1 : WorkflowDB),
      transitionToState db productionId newState userId userRole now = (.error e, db1) →
      db1 = db ∧
      findProduction db1 productionId = findProduction db productionId ∧
      db1.auditLog = db.auditLog := by
  intro db productionId newState userId userRole now e db1 h
  have hdb := transitionToState_error_db db productionId newState userId userRole now e db1 h
  subst hdb
  exact ⟨rfl, rfl, rfl⟩

/-- C7: a successful creation with N mix inputs yields an order with
exactly N mixes, each satisfying totalVolume = extractionVolume +
vehicleVolume within the 0.01 tolerance (in this rational model the
relation is exact), and the workflow update never rewrites the mixes. -/
theorem claim_C7_mix_roundtrip :
    (∀ (cat : Catalog) (data : CreateProductionDTO) (userId : ℕ) (now : ℚ)
       (codigo : String) (genLote : ℕ → String) (p : Production),
      createProduction cat data userId now codigo genLote = .ok p →
      p.mezclas.length = data.mezclas.length ∧
      p.cantidadMezclas = data.mezclas.length ∧
      ∀ mz ∈ p.mezclas,
        |mz.calculos.volumenTotal -
          (mz.calculos.volumenExtraer + mz.calculos.volumenVehiculo)| ≤ 1 / 100) ∧
    (∀ (p : Production) (newState : ProductionState) (userId : ℕ) (now : ℚ),
      (applyUpdateData p newState userId now).mezclas = p.mezclas) := by
  constructor
  · intro cat data userId now codigo genLote p h
    obtain ⟨-, mezclas, hb, hp⟩ := createProduction_ok_shape cat data userId now codigo genLote p h
    obtain ⟨hlen, hall⟩ := buildMezclas_ok_props cat data.lineaProduccion
      (data.fechaProduccion.getD now) now genLote data.mezclas 0 mezclas hb
    subst hp
    refine ⟨hlen, hlen, ?_⟩
    intro mz hmz
    obtain ⟨-, hvol⟩ := hall mz hmz
    rw [hvol]
    simp only [sub_self, abs_zero]
    norm_num
  · exact applyUpdateData_mezclas

/-- Witness for C7 at a concrete input: the fixture order has exactly one
mix and its volumes satisfy the invariant. -/
theorem claim_C7_witness :
    fixtureCreated.mezclas.length = fixtureDTO.mezclas.length ∧
    fixtureCreated.cantidadMezclas = fixtureDTO.mezclas.length ∧
    (∀ mz ∈ fixtureCreated.mezclas,
      |mz.calculos.volumenTotal -
        (mz.calculos.volumenExtraer + mz.calculos.volumenVehiculo)| ≤ 1 / 100) :=
  claim_C7_mix_roundtrip.1 fixtureCat fixtureDTO 9 0 "PROD-X" fixtureGenLote
    fixtureCreated fx_createProduction

/-- Counterexample for C2 as stated: on the fixture catalog whose only
stability record has 48 hours, and production date 0, the stored mix
expiry is 24 — the fixed 24-hour constant — not 0 + 48, even though the
calculation engine computed the instant 48 from the stability record. -/
theorem claim_C2_counterexample :
    createProduction fixtureCat fixtureDTO 9 0 "PROD-X" fixtureGenLote = .ok fixtureCreated ∧
    fixtureCreated.mezclas.map Mezcla.fechaVencimiento = [24] ∧
    fixtureCat.stabilities.map Stability.horasEstabilidad = [48] ∧
    (calculateFromDatabase fixtureCat 0 "HG-LOTE" 1 1 1 1 100 "mg").toOption.map
      CalculationResult.fechaVencimiento = some 48 ∧
    ¬ ((24 : ℚ) = 0 + 48) := by
  refine ⟨fx_createProduction, rfl, rfl, ?_, by norm_num⟩
  rw [fx_fromDB]
  rfl

/-- C2 (amended): every mix stored by a successful creation carries the
fixed expiry production-date + 24 hours, regardless of the stability
record; the engine's expiry computation itself fails on non-positive
stability hours and otherwise returns now + stabilityHours, but its result
is not what is stored on the mix. -/
theorem claim_C2_amended :
    (∀ (cat : Catalog) (data : CreateProductionDTO) (userId : ℕ) (now : ℚ)
       (codigo : String) (genLote : ℕ → String) (p : Production),
      createProduction cat data userId now codigo genLote = .ok p →
      ∀ mz ∈ p.mezclas, mz.fechaVencimiento = data.fechaProduccion.getD now + 24) ∧
    (∀ now horasEstabilidad : ℚ, horasEstabilidad ≤ 0 →
      calculateFechaVencimiento now horasEstabilidad =
        .error ⟨400, "Horas de estabilidad deben ser mayores a 0"⟩) ∧
    (∀ now horasEstabilidad : ℚ, 0 < horasEstabilidad →
      calculateFechaVencimiento now horasEstabilidad = .ok (now + horasEstabilidad)) := by
  refine ⟨?_, ?_, ?_⟩
  · intro cat data userId now codigo genLote p h mz hmz
    obtain ⟨-, mezclas, hb, hp⟩ := createProduction_ok_shape cat data userId now codigo genLote p h
    subst hp
    exact ((buildMezclas_ok_props cat data.lineaProduccion
      (data.fechaProduccion.getD now) now genLote data.mezclas 0 mezclas hb).2 mz hmz).1
  · intro now horasEstabilidad hle
    unfold calculateFechaVencimiento
    rw [if_pos hle]
  · intro now horasEstabilidad hlt
    unfold calculateFechaVencimiento
    rw [if_neg (not_le.mpr hlt)]

/-- Witness for C2 (amended) at concrete inputs: the fixture mix carries
expiry 0 + 24, the engine rejects 0 stability hours and maps 48 hours to
0 + 48. -/
theorem claim_C2_witness :
    (∀ mz ∈ fixtureCreated.mezclas, mz.fechaVencimiento = (0 : ℚ) + 24) ∧
    calculateFechaVencimiento 0 0 =
      .error ⟨400, "Horas de estabilidad deben ser mayores a 0"⟩ ∧
    calculateFechaVencimiento 0 48 = .ok (0 + 48) :=
  ⟨claim_C2_amended.1 fixtureCat fixtureDTO 9 0 "PROD-X" fixtureGenLote
      fixtureCreated fx_createProduction,
   claim_C2_amended.2.1 0 0 (by norm_num),
   claim_C2_amended.2.2 0 48 (by norm_num)⟩

/-- Counterexample for C3 as stated: the two catalogs hold the same SET of
stability records (a permutation), yet order creation fails on one and
succeeds on the other, because creation resolves stability by a 3-field
query that returns the first record matching (medicine, vehicle,
container) and ignores the laboratory: on the lab-8-first catalog it picks
the record of the non-existent laboratory 8 although validateStability
confirms an exact 4-tuple record for laboratory 1 exists there. -/
theorem claim_C3_counterexample :
    List.Perm fixtureCatTwoStabilities.stabilities fixtureCatTwoStabilitiesRev.stabilities ∧
    createProduction fixtureCatTwoStabilities fixtureDTO 9 0 "PROD-X" fixtureGenLote =
      .error ⟨400, "Validación fallida: Laboratorio no encontrado"⟩ ∧
    createProduction fixtureCatTwoStabilitiesRev fixtureDTO 9 0 "PROD-X" fixtureGenLote =
      .ok fixtureCreated ∧
    stabilityFindOne3 fixtureCatTwoStabilities 1 1 1 =
      some { medicamentoId := 1, laboratorioId := 8, vehiculoId := 1, envaseId := 1,
             horasEstabilidad := 72, condiciones := "ambiente" } ∧
    (validateStability fixtureCatTwoStabilities
      { medicamentoId := 1, laboratorioId := 1, vehiculoId := 1, envaseId := 1,
        lineaProductiva := Linea.ONCO }).isValid = true :=
  ⟨List.Perm.swap _ _ _, fx_createProductionBad, fx_createProductionRev, rfl, rfl⟩

/-- C3 (amended): validateStability succeeds exactly when a record matches
all four of (drug, lab, vehicle, container), but order creation resolves
the stability record by a 3-field query on (drug, vehicle, container)
only: it succeeds exactly when some record matches those three fields, and
the record it returns is constrained on exactly those three fields — the
laboratory is read off the record found, never matched against. -/
theorem claim_C3_amended :
    (∀ (cat : Catalog) (data : ProductionValidationData),
      (validateStability cat data).isValid = true ↔
        ∃ s ∈ cat.stabilities, s.medicamentoId = data.medicamentoId ∧
          s.laboratorioId = data.laboratorioId ∧ s.vehiculoId = data.vehiculoId ∧
          s.envaseId = data.envaseId) ∧
    (∀ (cat : Catalog) (m v e : ℕ),
      (stabilityFindOne3 cat m v e).isSome = true ↔
        ∃ s ∈ cat.stabilities, s.medicamentoId = m ∧ s.vehiculoId = v ∧ s.envaseId = e) ∧
    (∀ (cat : Catalog) (m v e : ℕ) (s : Stability),
      stabilityFindOne3 cat m v e = some s →
      s ∈ cat.stabilities ∧ s.medicamentoId = m ∧ s.vehiculoId = v ∧ s.envaseId = e) := by
  refine ⟨?_, ?_, ?_⟩
  · intro cat data
    have hv : (validateStability cat data).isValid =
        (stabilityFindOne4 cat data.medicamentoId data.laboratorioId
          data.vehiculoId data.envaseId).isSome := by
      unfold validateStability
      cases h : stabilityFindOne4 cat data.medicamentoId data.laboratorioId
          data.vehiculoId data.envaseId <;> simp
    rw [hv]
    unfold stabilityFindOne4
    rw [List.find?_isSome]
    simp only [decide_eq_true_eq]
  · intro cat m v e
    unfold stabilityFindOne3
    rw [List.find?_isSome]
    simp only [decide_eq_true_eq]
  · intro cat m v e s hf
    have h1 := List.mem_of_find?_eq_some hf
    have h2 := List.find?_some hf
    simp only [decide_eq_true_eq] at h2
    exact ⟨h1, h2.1, h2.2.1, h2.2.2⟩

/-- Witness for C3 (amended) at a concrete input: on the lab-8-first
catalog, the 3-field query returns the laboratory-8 record, which matches
the three queried fields. -/
theorem claim_C3_witness :
    { medicamentoId := 1, laboratorioId := 8, vehiculoId := 1, envaseId := 1,
      horasEstabilidad := 72, condiciones := "ambiente" } ∈ fixtureCatTwoStabilities.stabilities ∧
    ({ medicamentoId := 1, laboratorioId := 8, vehiculoId := 1, envaseId := 1,
       horasEstabilidad := 72, condiciones := "ambiente" } : Stability).medicamentoId = 1 :=
  ⟨(claim_C3_amended.2.2 fixtureCatTwoStabilities 1 1 1
      { medicamentoId := 1, laboratorioId := 8, vehiculoId := 1, envaseId := 1,
        horasEstabilidad := 72, condiciones := "ambiente" } rfl).1,
   (claim_C3_amended.2.2 fixtureCatTwoStabilities 1 1 1
      { medicamentoId := 1, laboratorioId := 8, vehiculoId := 1, envaseId := 1,
        horasEstabilidad := 72, condiciones := "ambiente" } rfl).2.1⟩

/-- Counterexample for C1 as stated: against the claim that at most one of
two concurrent same-target calls succeeds, the interleaving read-A,
read-B, write-A, write-B makes BOTH calls succeed — both reads pass
validation against state CREADO, both unconditional writes return ok —
and the second write silently overwrites the first caller's actor entry
(validadoPor ends as user 20, not 10) and timestamp. -/
theorem claim_C1_counterexample :
    transitionReadPhase fixtureDB 1 VALIDADO QUIMICO = .ok orderCREADO ∧
    raceW1.1 = .ok (applyUpdateData orderCREADO VALIDADO 10 5) ∧
    raceW2.1 = .ok (applyUpdateData (applyUpdateData orderCREADO VALIDADO 10 5) VALIDADO 20 6) ∧
    findProduction raceW2.2 1 =
      some { orderCREADO with
             estado := VALIDADO
             timestamps := { creado := 0, validado := some 6 }
             validadoPor := some 20 } ∧
    (applyUpdateData (applyUpdateData orderCREADO VALIDADO 10 5) VALIDADO 20 6).validadoPor
      ≠ some 10 :=
  ⟨rfl, rfl, rfl, rfl, by decide⟩

/-- C1 (amended): the step-4 update is NOT conditioned on the state read
in step 1 — the write phase succeeds against whatever document is stored,
for any claimed previous state. Under sequential execution a second
same-target call does fail with the illegal-transition error, but under
the concurrent interleaving in which both calls read the prior state
before either writes, both calls succeed and the second write silently
overwrites the first caller's state, timestamp and actor entry. -/
theorem claim_C1_amended :
    (∀ (db : WorkflowDB) (productionId : ℕ) (previousState newState : ProductionState)
       (userId : ℕ) (now : ℚ) (p : Production),
      findProduction db productionId = some p →
      (transitionWritePhase db productionId previousState newState userId now).1 =
        .ok (applyUpdateData p newState userId now)) ∧
    (∀ (db : WorkflowDB) (productionId : ℕ) (newState : ProductionState)
       (userId1 : ℕ) (userRole1 : UserRole) (now1 : ℚ) (p1 : Production) (db1 : WorkflowDB)
       (userId2 : ℕ) (userRole2 : UserRole) (now2 : ℚ),
      transitionToState db productionId newState userId1 userRole1 now1 = (.ok p1, db1) →
      newState ∉ STATE_TRANSITIONS newState →
      transitionToState db1 productionId newState userId2 userRole2 now2 =
        (.error ⟨400, "Transición no permitida: no se puede pasar de " ++
          newState.name ++ " a " ++ newState.name⟩, db1)) ∧
    (∀ (db : WorkflowDB) (productionId : ℕ) (newState : ProductionState)
       (userId1 userId2 : ℕ) (userRole1 userRole2 : UserRole) (now1 now2 : ℚ) (p : Production),
      findProduction db productionId = some p →
      newState ∈ STATE_TRANSITIONS p.estado →
      userRole1 ∈ ROLE_PERMISSIONS newState →
      userRole2 ∈ ROLE_PERMISSIONS newState →
      transitionReadPhase db productionId newState userRole1 = .ok p ∧
      transitionReadPhase db productionId newState userRole2 = .ok p ∧
      (transitionWritePhase db productionId p.estado newState userId1 now1).1 =
        .ok (applyUpdateData p newState userId1 now1) ∧
      (transitionWritePhase
        (transitionWritePhase db productionId p.estado newState userId1 now1).2
        productionId p.estado newState userId2 now2).1 =
        .ok (applyUpdateData p newState userId2 now2) ∧
      findProduction
        (transitionWritePhase
          (transitionWritePhase db productionId p.estado newState userId1 now1).2
          productionId p.estado newState userId2 now2).2 productionId =
        some (applyUpdateData p newState userId2 now2)) := by
  refine ⟨?_, ?_, ?_⟩
  · intro db productionId previousState newState userId now p hfind
    rw [transitionWritePhase_found db productionId previousState newState userId now p hfind]
  · intro db productionId newState userId1 userRole1 now1 p1 db1 userId2 userRole2 now2 h hnotin
    obtain ⟨q, hfindq, hmem, hrole, hp1, hdb1⟩ :=
      transitionToState_ok_shape db productionId newState userId1 userRole1 now1 p1 db1 h
    have hsome : (findProduction db productionId).isSome := by rw [hfindq]; rfl
    have hf1 : findProduction db1 productionId = some p1 := by
      rw [hdb1]
      exact findProduction_store_self db productionId p1 hsome
    have hne1 : newState ∉ STATE_TRANSITIONS p1.estado := by
      intro hmem1
      rw [hp1, applyUpdateData_estado] at hmem1
      exact hnotin hmem1
    have herr := transitionReadPhase_illegal db1 productionId newState userRole2 p1 hf1 hne1
    rw [hp1, applyUpdateData_estado] at herr
    exact transitionToState_of_readPhase_error db1 productionId newState userId2 userRole2 now2 _ herr
  · intro db productionId newState userId1 userId2 userRole1 userRole2 now1 now2 p
      hfind hmem hrole1 hrole2
    have hsome : (findProduction db productionId).isSome := by rw [hfind]; rfl
    have hw1 := transitionWritePhase_found db productionId p.estado newState userId1 now1 p hfind
    have hf1 : findProduction (transitionWritePhase db productionId p.estado newState userId1 now1).2
        productionId = some (applyUpdateData p newState userId1 now1) := by
      rw [hw1]
      exact findProduction_store_self db productionId (applyUpdateData p newState userId1 now1) hsome
    have hsome1 : (findProduction
        (transitionWritePhase db productionId p.estado newState userId1 now1).2 productionId).isSome := by
      rw [hf1]; rfl
    have hw2 := transitionWritePhase_found
      (transitionWritePhase db productionId p.estado newState userId1 now1).2
      productionId p.estado newState userId2 now2 _ hf1
    refine ⟨(transitionReadPhase_ok_iff db productionId newState userRole1 p).mpr ⟨hfind, hmem, hrole1⟩,
            (transitionReadPhase_ok_iff db productionId newState userRole2 p).mpr ⟨hfind, hmem, hrole2⟩,
            by rw [hw1], ?_, ?_⟩
    · rw [hw2, applyUpdateData_overwrite]
    · rw [hw2]
      rw [show findProduction
            { productions := (storeProduction
                (transitionWritePhase db productionId p.estado newState userId1 now1).2 productionId
                (applyUpdateData (applyUpdateData p newState userId1 now1) newState userId2 now2)).productions
              auditLog := transitionAuditRecord productionId p.estado newState userId2 now2 ::
                (transitionWritePhase db productionId p.estado newState userId1 now1).2.auditLog }
            productionId =
          findProduction (storeProduction
            (transitionWritePhase db productionId p.estado newState userId1 now1).2 productionId
            (applyUpdateData (applyUpdateData p newState userId1 now1) newState userId2 now2))
            productionId from rfl]
      rw [findProduction_store_self _ productionId _ hsome1, applyUpdateData_overwrite]

/-- Witness for C1 (amended) at concrete inputs: the unconditional write
succeeds with an arbitrary claimed previous state; a second sequential
same-target call fails illegal-transition; and in the interleaved run with
two permitted actors both calls succeed and the final document carries the
second actor. -/
theorem claim_C1_witness :
    (transitionWritePhase fixtureDB 1 PRODUCIDO VALIDADO 10 5).1 =
      .ok (applyUpdateData orderCREADO VALIDADO 10 5) ∧
    transitionToState (transitionToState fixtureDB 1 VALIDADO 10 QUIMICO 5).2 1 VALIDADO 20 QUIMICO 6 =
      (.error ⟨400, "Transición no permitida: no se puede pasar de VALIDADO a VALIDADO"⟩,
       (transitionToState fixtureDB 1 VALIDADO 10 QUIMICO 5).2) ∧
    transitionReadPhase fixtureDB 1 VALIDADO QUIMICO = .ok orderCREADO ∧
    transitionReadPhase fixtureDB 1 VALIDADO COORDINADOR = .ok orderCREADO ∧
    (transitionWritePhase fixtureDB 1 orderCREADO.estado VALIDADO 10 5).1 =
      .ok (applyUpdateData orderCREADO VALIDADO 10 5) ∧
    (transitionWritePhase (transitionWritePhase fixtureDB 1 orderCREADO.estado VALIDADO 10 5).2 1
      orderCREADO.estado VALIDADO 20 6).1 = .ok (applyUpdateData orderCREADO VALIDADO 20 6) ∧
    findProduction (transitionWritePhase
      (transitionWritePhase fixtureDB 1 orderCREADO.estado VALIDADO 10 5).2 1
      orderCREADO.estado VALIDADO 20 6).2 1 = some (applyUpdateData orderCREADO VALIDADO 20 6) := by
  refine ⟨claim_C1_amended.1 fixtureDB 1 PRODUCIDO VALIDADO 10 5 orderCREADO rfl, ?_, ?_⟩
  · exact claim_C1_amended.2.1 fixtureDB 1 VALIDADO 10 QUIMICO 5
      (applyUpdateData orderCREADO VALIDADO 10 5)
      (transitionToState fixtureDB 1 VALIDADO 10 QUIMICO 5).2 20 QUIMICO 6
      (by rfl) (by decide)
  · exact claim_C1_amended.2.2 fixtureDB 1 VALIDADO 10 20 QUIMICO COORDINADOR 5 6 orderCREADO
      rfl (by decide) (by decide) (by decide)

/-- Witness for C10 at a concrete input: the failing skip CREADO →
PROGRAMADO leaves the fixture store byte-identical. -/
theorem claim_C10_witness :
    (transitionToState fixtureDB 1 PROGRAMADO 10 COORDINADOR 5).2 = fixtureDB ∧
    (transitionToState fixtureDB 1 PROGRAMADO 10 COORDINADOR 5).2.auditLog = fixtureDB.auditLog :=
  ⟨(claim_C10_failure_no_effect fixtureDB 1 PROGRAMADO 10 COORDINADOR 5
      ⟨400, "Transición no permitida: no se puede pasar de CREADO a PROGRAMADO"⟩
      (transitionToState fixtureDB 1 PROGRAMADO 10 COORDINADOR 5).2 rfl).1,
   (claim_C10_failure_no_effect fixtureDB 1 PROGRAMADO 10 COORDINADOR 5
      ⟨400, "Transición no permitida: no se puede pasar de CREADO a PROGRAMADO"⟩
      (transitionToState fixtureDB 1 PROGRAMADO 10 COORDINADOR 5).2 rfl).2.2⟩

end HGBase
